import Mathlib

/-!
# D3DEngine (Annihilargh): graphics device layer and frame loop

A shallow embedding of `src/Annihilargh/Graphics.cpp` and `src/Annihilargh/Game.cpp`.

* Status codes (`HRESULT`, a 32-bit signed `long`) are integers; the conversion to
  `unsigned long` is written out as `% 2 ^ 32`.
* Calls into the Direct3D backend are recorded in a call log, and the status each call
  returns is supplied by a `Backend` record, so every combination of results is covered.
* A C++ `throw` is the `error` alternative of `Except`; the call log survives it.
* `float` values are elements of an arbitrary type `F` that has literals; the code only
  passes them on, it never computes with them.
-/

namespace Annihilargh

/-! ## Status codes -/

/-- Windows `HRESULT`: a signed 32-bit status code. -/
abbrev HRESULT := Int

/-- The `FAILED(hr)` test of the Windows headers: a status code is a failure when negative. -/
def FAILED (hr : HRESULT) : Bool := decide (hr < 0)

/-- `DXGI_ERROR_DEVICE_REMOVED` is `0x887A0005` read as a signed 32-bit integer. -/
def DXGI_ERROR_DEVICE_REMOVED : HRESULT := 0x887A0005 - 2 ^ 32

/-- The value of a status code after the cast `(unsigned long)hr` (32 bits on Windows). -/
def toUnsignedLong (hr : HRESULT) : Nat := (hr % 2 ^ 32).toNat

/-! ## Number formatting of `std::ostringstream` -/

/-- One digit as `std::hex << std::uppercase` prints it. -/
def hexDigitUpper (d : Nat) : Char :=
  if d < 10 then Char.ofNat (48 + d) else Char.ofNat (55 + d)

/-- One digit as `std::dec` prints it. -/
def decDigit (d : Nat) : Char := Char.ofNat (48 + d)

/-- Digits of `n` in the given base, most significant first, pushed in front of `acc`;
`fuel` bounds the number of digits. -/
def digitsAux (base : Nat) (digit : Nat → Char) : Nat → Nat → List Char → List Char
  | 0, _, acc => acc
  | fuel + 1, n, acc =>
    if n / base = 0 then digit (n % base) :: acc
    else digitsAux base digit fuel (n / base) (digit (n % base) :: acc)

/-- Text put into the stream by `oss << std::hex << std::uppercase << n`. -/
def formatHexUpper (n : Nat) : String := String.mk (digitsAux 16 hexDigitUpper (n + 1) n [])

/-- Text put into the stream by `oss << std::dec << n`. -/
def formatDec (n : Nat) : String := String.mk (digitsAux 10 decDigit (n + 1) n [])

/-- Value of an upper-case hexadecimal digit; `none` for every other character. -/
def hexUpperValue (c : Char) : Option Nat :=
  if 48 ≤ c.toNat ∧ c.toNat ≤ 57 then some (c.toNat - 48)
  else if 65 ≤ c.toNat ∧ c.toNat ≤ 70 then some (c.toNat - 55)
  else none

/-- Value of a decimal digit; `none` for every other character. -/
def decValue (c : Char) : Option Nat :=
  if 48 ≤ c.toNat ∧ c.toNat ≤ 57 then some (c.toNat - 48) else none

/-- One step of reading a numeral, left to right. -/
def readStep (base : Nat) (value : Char → Option Nat) (acc : Option Nat) (c : Char) :
    Option Nat :=
  match acc, value c with
  | some a, some d => some (a * base + d)
  | _, _ => none

/-- The natural number a numeral denotes; `none` when it is empty or has a character that
is not a digit. -/
def readNumeral (base : Nat) (value : Char → Option Nat) : List Char → Option Nat
  | [] => none
  | c :: cs => (c :: cs).foldl (readStep base value) (some 0)

/-! ## Anomalies (`Graphics::AnomalyHresult`, `Graphics::DeviceRemovedAnomaly`) -/

/-- Dynamic type of a thrown graphics anomaly: `DeviceRemovedAnomaly` derives from
`AnomalyHresult` and overrides `GetType` only. -/
inductive AnomalyClass
  | AnomalyHresult
  | DeviceRemovedAnomaly
  deriving DecidableEq, Repr

/-- An object of class `Graphics::AnomalyHresult` (or of its subclass): the members
`line`, `file` and `whatBuffer` of the base class `Anomaly` and the member `hr`. -/
structure AnomalyHresult where
  cls : AnomalyClass
  line : Nat
  file : String
  hr : HRESULT
  whatBuffer : String
  deriving DecidableEq, Repr

/-- The two helpers `what()` relies on whose bodies are outside `Graphics.cpp`:
`Window::Anomaly::TranslateErrorCode` and `Anomaly::GetOriginString`. -/
structure Env where
  TranslateErrorCode : HRESULT → String
  GetOriginString : Nat → String → String

/-- Modelled from the spec: the base-class constructor `Anomaly(line, file)` is not among
the sources; the spec says an Anomaly "carries a line/location provenance ... and a
lazily-formatted diagnostic string", so the constructor stores line and file and leaves
the `std::string` member `whatBuffer` default-constructed, that is empty.
`AnomalyHresult(line, file, hr)` then stores `hr`. -/
def AnomalyHresult.ctor (line : Nat) (file : String) (hr : HRESULT) : AnomalyHresult :=
  { cls := .AnomalyHresult, line := line, file := file, hr := hr, whatBuffer := "" }

/-- Modelled from the spec: the class `DeviceRemovedAnomaly` is declared in `Graphics.h`,
which is not among the sources; the spec calls it "a special-cased nested error type"
that carries "the device's reported removal reason". `Graphics.cpp` builds it with
`GFX_DEVICE_REMOVED_ANOMALY(hr)`, that is with the arguments `(line, file, hr)` of the
constructor of `AnomalyHresult`, and overrides `GetType` for it. -/
def DeviceRemovedAnomaly.ctor (line : Nat) (file : String) (hr : HRESULT) : AnomalyHresult :=
  { AnomalyHresult.ctor line file hr with cls := .DeviceRemovedAnomaly }

/-- The virtual `GetType()`. -/
def AnomalyHresult.GetType (a : AnomalyHresult) : String :=
  match a.cls with
  | .AnomalyHresult => "Graphics Anomaly"
  | .DeviceRemovedAnomaly => "Graphics Anomaly: Device Removed"

/-- `GetErrorCode()` returns the stored status code. -/
def AnomalyHresult.GetErrorCode (a : AnomalyHresult) : HRESULT := a.hr

/-- `GetErrorString()` asks `Window::Anomaly::TranslateErrorCode` for the description. -/
def AnomalyHresult.GetErrorString (env : Env) (a : AnomalyHresult) : String :=
  env.TranslateErrorCode a.hr

/-- `GetOriginString()` of the base class, a function of the stored line and file. -/
def AnomalyHresult.GetOriginString (env : Env) (a : AnomalyHresult) : String :=
  env.GetOriginString a.line a.file

/-- What a call of `what()` does besides returning: look the description up, and assign
to `whatBuffer`. -/
inductive WhatEffect
  | TranslateErrorCode (hr : HRESULT)
  | AssignWhatBuffer (text : String)
  deriving DecidableEq, Repr

/-- Result of one call of `what()`: the returned text, the object afterwards, and the
effects of the call in order. -/
structure WhatResult where
  text : String
  self : AnomalyHresult
  effects : List WhatEffect

/-- The text `what()` streams into `oss`. A `long` written under `std::hex` is printed as
its 32-bit two's complement bit pattern, the same number the cast to `unsigned long`
yields. `std::endl` is a newline. -/
def AnomalyHresult.format (env : Env) (a : AnomalyHresult) : String :=
  a.GetType ++ "\n"
    ++ "Error Code: 0x" ++ formatHexUpper (toUnsignedLong a.GetErrorCode)
    ++ " (" ++ formatDec (toUnsignedLong a.GetErrorCode) ++ ")" ++ "\n"
    ++ "Error String: " ++ a.GetErrorString env ++ "\n"
    ++ a.GetOriginString env

/-- `AnomalyHresult::what()`: build the text in a fresh stream, assign it to
`whatBuffer`, return the buffer's characters. -/
def AnomalyHresult.what (env : Env) (a : AnomalyHresult) : WhatResult :=
  let text := a.format env
  { text := text
    self := { a with whatBuffer := text }
    effects := [.TranslateErrorCode a.hr, .AssignWhatBuffer text] }

/-- The texts returned by `n` calls of `what()` in a row on the same object, with the
object after them. -/
def AnomalyHresult.whatTimes (env : Env) : Nat → AnomalyHresult → List String × AnomalyHresult
  | 0, a => ([], a)
  | n + 1, a =>
    let r := a.what env
    let rest := AnomalyHresult.whatTimes env n r.self
    (r.text :: rest.1, rest.2)

/-! ## The Direct3D backend as seen from `Graphics.cpp` -/

/-- A COM interface pointer; `0` is `nullptr`. -/
abbrev Handle := Nat

/-- The fields of `DXGI_SWAP_CHAIN_DESC` the constructor fills in; enumerators are kept
by name. -/
structure SwapChainDesc where
  Width : Nat
  Height : Nat
  Format : String
  RefreshRateNumerator : Nat
  RefreshRateDenominator : Nat
  Scaling : String
  ScanlineOrdering : String
  SampleCount : Nat
  SampleQuality : Nat
  BufferUsage : String
  BufferCount : Nat
  OutputWindow : Handle
  Windowed : Bool
  SwapEffect : String
  Flags : Nat
  deriving DecidableEq, Repr

/-- The fields of `D3D11_BUFFER_DESC`. -/
structure BufferDesc where
  BindFlags : String
  Usage : String
  CPUAccessFlags : Nat
  MiscFlags : Nat
  ByteWidth : Nat
  StructureByteStride : Nat
  deriving DecidableEq, Repr

/-- One `D3D11_INPUT_ELEMENT_DESC`. -/
structure InputElementDesc where
  SemanticName : String
  SemanticIndex : Nat
  Format : String
  InputSlot : Nat
  AlignedByteOffset : Nat
  InputSlotClass : String
  InstanceDataStepRate : Nat
  deriving DecidableEq, Repr

/-- The fields of `D3D11_VIEWPORT`. -/
structure Viewport (F : Type) where
  Width : F
  Height : F
  MinDepth : F
  MaxDepth : F
  TopLeftX : F
  TopLeftY : F
  deriving DecidableEq, Repr

/-- A call `Graphics.cpp` makes into the backend, with the arguments it passes. -/
inductive D3DCall (F : Type)
  | D3D11CreateDeviceAndSwapChain (driverType : String) (flags : Nat) (sdkVersion : String)
      (sd : SwapChainDesc)
  | GetBuffer (swapChain : Handle) (index : Nat)
  | CreateRenderTargetView (device : Handle) (resource : Handle)
  | Present (swapChain : Handle) (syncInterval : Nat) (flags : Nat)
  | GetDeviceRemovedReason (device : Handle)
  | ClearRenderTargetView (context : Handle) (view : Handle) (colour : List F)
  | CreateBuffer (device : Handle) (desc : BufferDesc) (vertices : List (F × F))
  | IASetVertexBuffers (context : Handle) (startSlot : Nat) (numBuffers : Nat)
      (buffer : Handle) (stride : Nat) (offset : Nat)
  | D3DReadFileToBlob (fileName : String)
  | CreatePixelShader (device : Handle) (blob : Handle)
  | PSSetShader (context : Handle) (shader : Handle)
  | CreateVertexShader (device : Handle) (blob : Handle)
  | VSSetShader (context : Handle) (shader : Handle)
  | CreateInputLayout (device : Handle) (elements : List InputElementDesc) (blob : Handle)
  | IASetInputLayout (context : Handle) (layout : Handle)
  | OMSetRenderTargets (context : Handle) (numViews : Nat) (view : Handle)
  | RSSetViewports (context : Handle) (numViewports : Nat) (viewport : Viewport F)
  | IASetPrimitiveTopology (context : Handle) (topology : String)
  | Draw (context : Handle) (vertexCount : Nat) (startVertexLocation : Nat)
  deriving DecidableEq, Repr

/-- Whether a backend call is a `Present`. -/
def D3DCall.isPresent {F : Type} : D3DCall F → Bool
  | .Present _ _ _ => true
  | _ => false

/-- Whether a backend call is a `Draw`. -/
def D3DCall.isDraw {F : Type} : D3DCall F → Bool
  | .Draw _ _ _ => true
  | _ => false

/-- What the backend answers: for every fallible call the status code it returns and the
interface pointers it hands out. -/
structure Backend where
  D3D11CreateDeviceAndSwapChain : HRESULT × Handle × Handle × Handle
  GetBuffer : HRESULT × Handle
  CreateRenderTargetView : HRESULT × Handle
  Present : HRESULT
  GetDeviceRemovedReason : HRESULT
  CreateBuffer : HRESULT × Handle
  D3DReadFileToBlob : String → HRESULT × Handle
  CreatePixelShader : HRESULT × Handle
  CreateVertexShader : HRESULT × Handle
  CreateInputLayout : HRESULT × Handle

/-- A run of a member function: the backend calls it issued, in order, and how it ended
(`error` is a thrown anomaly). -/
structure Run (F : Type) (α : Type) where
  calls : List (D3DCall F)
  result : Except AnomalyHresult α

/-- The members of `Graphics`. -/
structure Graphics where
  pDevice : Handle
  pSwapChain : Handle
  pDeviceContext : Handle
  pTargetView : Handle
  deriving DecidableEq, Repr

/-- `D3D11_CREATE_DEVICE_DEBUG`. -/
def D3D11_CREATE_DEVICE_DEBUG : Nat := 2

section GraphicsCpp

variable {F : Type} [OfScientific F] [Neg F]

/-- `Graphics::Graphics(HWND hWnd)`. `file` is `__FILE__`, `ndebug` tells whether `NDEBUG`
is defined. Each `GFX_THROW_FAILED(call)` is spelled out: issue the call, and throw
`AnomalyHresult(__LINE__, __FILE__, hr)` when its status is a failure. For a macro
invocation spread over several lines, `__LINE__` is the line it starts on. -/
def Graphics.ctor (be : Backend) (file : String) (ndebug : Bool) (hWnd : Handle) :
    Run F Graphics :=
  let sd : SwapChainDesc :=
    { Width := 0, Height := 0, Format := "DXGI_FORMAT_B8G8R8A8_UNORM"
      RefreshRateNumerator := 0, RefreshRateDenominator := 0
      Scaling := "DXGI_MODE_SCALING_UNSPECIFIED"
      ScanlineOrdering := "DXGI_MODE_SCANLINE_ORDER_UNSPECIFIED"
      SampleCount := 1, SampleQuality := 0
      BufferUsage := "DXGI_USAGE_RENDER_TARGET_OUTPUT"
      BufferCount := 1, OutputWindow := hWnd, Windowed := true
      SwapEffect := "DXGI_SWAP_EFFECT_DISCARD", Flags := 0 }
  let swapFlags : Nat := if ndebug then 0 else D3D11_CREATE_DEVICE_DEBUG
  let log : List (D3DCall F) :=
    [.D3D11CreateDeviceAndSwapChain "D3D_DRIVER_TYPE_HARDWARE" swapFlags "D3D11_SDK_VERSION" sd]
  let (hr, pSwapChain, pDevice, pDeviceContext) := be.D3D11CreateDeviceAndSwapChain
  if FAILED hr then ⟨log, .error (AnomalyHresult.ctor 92 file hr)⟩ else
  let log := log ++ [.GetBuffer pSwapChain 0]
  let (hr, pBackBuffer) := be.GetBuffer
  if FAILED hr then ⟨log, .error (AnomalyHresult.ctor 112 file hr)⟩ else
  let log := log ++ [.CreateRenderTargetView pDevice pBackBuffer]
  let (hr, pTargetView) := be.CreateRenderTargetView
  if FAILED hr then ⟨log, .error (AnomalyHresult.ctor 114 file hr)⟩ else
  ⟨log, .ok { pDevice := pDevice, pSwapChain := pSwapChain
              pDeviceContext := pDeviceContext, pTargetView := pTargetView }⟩

/-- `Graphics::EndFrame()`. The trailing `GFX_THROW_FAILED(hr)` re-tests the same `hr`. -/
def Graphics.EndFrame (be : Backend) (file : String) (gfx : Graphics) : Run F Unit :=
  let log : List (D3DCall F) := [.Present gfx.pSwapChain 1 0]
  let hr := be.Present
  if FAILED hr then
    if hr = DXGI_ERROR_DEVICE_REMOVED then
      let log := log ++ [.GetDeviceRemovedReason gfx.pDevice]
      ⟨log, .error (DeviceRemovedAnomaly.ctor 128 file be.GetDeviceRemovedReason)⟩
    else if FAILED hr then ⟨log, .error (AnomalyHresult.ctor 130 file hr)⟩
    else ⟨log, .ok ()⟩
  else ⟨log, .ok ()⟩

/-- `Graphics::ClearBuffer(r, g, b)`: the calls issued and the object afterwards. -/
def Graphics.ClearBuffer (gfx : Graphics) (r g b : F) : List (D3DCall F) × Graphics :=
  let colour : List F := [r, g, b, 1.0]
  ([.ClearRenderTargetView gfx.pDeviceContext gfx.pTargetView colour], gfx)

/-- `Graphics::DrawTestTriangle()`. -/
def Graphics.DrawTestTriangle (be : Backend) (file : String) (gfx : Graphics) : Run F Unit :=
  let vertices : List (F × F) := [(0.0, 0.5), (0.5, -0.5), (-0.5, -0.5)]
  let sizeofVertex : Nat := 8
  let bufferDesc : BufferDesc :=
    { BindFlags := "D3D11_BIND_VERTEX_BUFFER", Usage := "D3D11_USAGE_DEFAULT"
      CPUAccessFlags := 0, MiscFlags := 0
      ByteWidth := vertices.length * sizeofVertex, StructureByteStride := sizeofVertex }
  let log : List (D3DCall F) := [.CreateBuffer gfx.pDevice bufferDesc vertices]
  let (hr, pVertexBuffer) := be.CreateBuffer
  if FAILED hr then ⟨log, .error (AnomalyHresult.ctor 166 file hr)⟩ else
  let stride : Nat := sizeofVertex
  let offset : Nat := 0
  let log := log ++ [.IASetVertexBuffers gfx.pDeviceContext 0 1 pVertexBuffer stride offset]
  -- create and bind pixel shader
  let log := log ++ [.D3DReadFileToBlob "PixelShader.cso"]
  let (hr, pBlob) := be.D3DReadFileToBlob "PixelShader.cso"
  if FAILED hr then ⟨log, .error (AnomalyHresult.ctor 178 file hr)⟩ else
  let log := log ++ [.CreatePixelShader gfx.pDevice pBlob]
  let (hr, pPixelShader) := be.CreatePixelShader
  if FAILED hr then ⟨log, .error (AnomalyHresult.ctor 179 file hr)⟩ else
  let log := log ++ [.PSSetShader gfx.pDeviceContext pPixelShader]
  -- create and bind vertex shader
  let log := log ++ [.D3DReadFileToBlob "VertexShader.cso"]
  let (hr, pBlob) := be.D3DReadFileToBlob "VertexShader.cso"
  if FAILED hr then ⟨log, .error (AnomalyHresult.ctor 184 file hr)⟩ else
  let log := log ++ [.CreateVertexShader gfx.pDevice pBlob]
  let (hr, pVertexShader) := be.CreateVertexShader
  if FAILED hr then ⟨log, .error (AnomalyHresult.ctor 185 file hr)⟩ else
  let log := log ++ [.VSSetShader gfx.pDeviceContext pVertexShader]
  -- input layout
  let ied : List InputElementDesc :=
    [{ SemanticName := "Position", SemanticIndex := 0, Format := "DXGI_FORMAT_R32G32_FLOAT"
       InputSlot := 0, AlignedByteOffset := 0
       InputSlotClass := "D3D11_INPUT_PER_VERTEX_DATA", InstanceDataStepRate := 0 }]
  let log := log ++ [.CreateInputLayout gfx.pDevice ied pBlob]
  let (hr, pInputLayout) := be.CreateInputLayout
  if FAILED hr then ⟨log, .error (AnomalyHresult.ctor 198 file hr)⟩ else
  let log := log ++ [.IASetInputLayout gfx.pDeviceContext pInputLayout]
  -- bind render target
  let log := log ++ [.OMSetRenderTargets gfx.pDeviceContext 1 gfx.pTargetView]
  -- configure the viewport
  let viewport : Viewport F :=
    { Width := 800.0, Height := 600.0, MinDepth := 0.0, MaxDepth := 1.0
      TopLeftX := 0.0, TopLeftY := 0.0 }
  let log := log ++ [.RSSetViewports gfx.pDeviceContext 1 viewport]
  -- create triangle list
  let log := log ++
    [.IASetPrimitiveTopology gfx.pDeviceContext "D3D11_PRIMITIVE_TOPOLOGY_TRIANGLELIST"]
  let log := log ++ [.Draw gfx.pDeviceContext vertices.length 0]
  ⟨log, .ok ()⟩

end GraphicsCpp

/-! ## The frame loop of `Game.cpp` -/

/-- A keyboard event, with what its accessors `IsPress()` and `GetCode()` return. -/
structure KeyEvent where
  IsPress : Bool
  GetCode : Nat
  deriving DecidableEq, Repr

/-- The virtual-key code `VK_ESCAPE`. -/
def VK_ESCAPE : Nat := 0x1B

/-- The test of the `if` inside the key loop of `Game::Tick`. -/
def KeyEvent.isEscapePress (e : KeyEvent) : Bool := e.IsPress && e.GetCode == VK_ESCAPE

/-- A call `Game.cpp` makes on one of its collaborators (window, keyboard, mouse, graphics,
light, model, camera, timer, ImGui). Const accessors (`GetGraphics`, `GetMatrix`,
`IsPointerEnabled`, `IsPress`, `GetCode`, `GetIO`) are read directly and not logged. -/
inductive GameCall (F M : Type)
  | WindowCtor (width : Nat) (height : Nat) (name : String)
  | LightCtor (radius : F)
  | EnableMousePointer
  | DisableMousePointer
  | EnableRawInput
  | DisableRawInput
  | SetProjection (m : M)
  | TimerReset
  | BeginFrame (r : F) (g : F) (b : F)
  | SetCamera (m : M)
  | LightBind (m : M)
  | NanosuitDraw
  | LightDraw
  | ReadKey
  | CameraDisplayControlGUI
  | LightDisplayControlGUI
  | NanosuitShowWindow
  | ImGuiBegin (name : String)
  | ImGuiTextFloats (fmt : String) (args : List F)
  | ImGuiTextInts (fmt : String) (args : List Int)
  | ImGuiEnd
  | ReadRawDelta
  | EndFrame

/-- Calls on the window, the keyboard and the mouse. -/
def GameCall.isInput {F M : Type} : GameCall F M → Bool
  | .EnableMousePointer | .DisableMousePointer | .EnableRawInput | .DisableRawInput
  | .ReadKey | .ReadRawDelta => true
  | _ => false

/-- Calls that build the UI overlay. -/
def GameCall.isOverlay {F M : Type} : GameCall F M → Bool
  | .CameraDisplayControlGUI | .LightDisplayControlGUI | .NanosuitShowWindow
  | .ImGuiBegin _ | .ImGuiTextFloats _ _ | .ImGuiTextInts _ _ | .ImGuiEnd => true
  | _ => false

/-- Whether a call is `Graphics::SetCamera`. -/
def GameCall.isSetCamera {F M : Type} : GameCall F M → Bool
  | .SetCamera _ => true
  | _ => false

/-- Whether a call is `Graphics::SetProjection`. -/
def GameCall.isSetProjection {F M : Type} : GameCall F M → Bool
  | .SetProjection _ => true
  | _ => false

/-- The state `Game.cpp` reads and writes: the window's pointer flag, the mouse's raw-input
flag, the keyboard's event queue, the mouse's raw-delta queue, the members `x` and `y`,
and the log of calls made so far. -/
structure GameState (F M : Type) where
  pointerEnabled : Bool
  rawInputEnabled : Bool
  keyQueue : List KeyEvent
  rawDeltaQueue : List (Int × Int)
  x : Int
  y : Int
  log : List (GameCall F M)

/-- Why a run of code of `Game.cpp` gave no result: a collaborator threw (with the state
at that point), or a loop did not end within its bound. -/
inductive Stop (F M : Type)
  | thrown (s : GameState F M)
  | outOfFuel

/-- What a frame reads from its collaborators: the matrix `camera.GetMatrix()` returns,
what `ImGui::Begin` returns for a window name, and `ImGui::GetIO().Framerate`. -/
structure FrameInput (F M : Type) where
  cameraMatrix : M
  ImGuiBegin : String → Bool
  Framerate : F

/-- A 32-bit `int` after an addition, wrapped into the signed range. -/
def wrapInt32 (v : Int) : Int := (v + 2 ^ 31) % 2 ^ 32 - 2 ^ 31

section GameCpp

variable {F M : Type} [OfScientific F] [Div F]

/-- Issue one call: it is logged, and it either returns or throws, as `throws` (given the
calls made before and the call itself) decides. A throw ends the run with the state at
that point. -/
def GameState.call (throws : List (GameCall F M) → GameCall F M → Bool) (c : GameCall F M)
    (s : GameState F M) : Except (Stop F M) (GameState F M) :=
  let s1 := { s with log := s.log ++ [c] }
  if throws s.log c then .error (.thrown s1) else .ok s1

/-- Modelled from the spec: `Window::EnableMousePointer()` is not among the sources; the
window's pointer flag is a boolean that this call sets, which is the flag
`IsPointerEnabled()` reads. -/
def Window.EnableMousePointer (throws : List (GameCall F M) → GameCall F M → Bool)
    (s : GameState F M) : Except (Stop F M) (GameState F M) := do
  let s ← s.call throws .EnableMousePointer
  pure { s with pointerEnabled := true }

/-- Modelled from the spec: `Window::DisableMousePointer()` is not among the sources; the
call clears the window's pointer flag. -/
def Window.DisableMousePointer (throws : List (GameCall F M) → GameCall F M → Bool)
    (s : GameState F M) : Except (Stop F M) (GameState F M) := do
  let s ← s.call throws .DisableMousePointer
  pure { s with pointerEnabled := false }

/-- Modelled from the spec: `Mouse::EnableRawInput()` is not among the sources; the mouse's
raw-input flag is a boolean that this call sets. -/
def Mouse.EnableRawInput (throws : List (GameCall F M) → GameCall F M → Bool)
    (s : GameState F M) : Except (Stop F M) (GameState F M) := do
  let s ← s.call throws .EnableRawInput
  pure { s with rawInputEnabled := true }

/-- Modelled from the spec: `Mouse::DisableRawInput()` is not among the sources; the call
clears the mouse's raw-input flag. -/
def Mouse.DisableRawInput (throws : List (GameCall F M) → GameCall F M → Bool)
    (s : GameState F M) : Except (Stop F M) (GameState F M) := do
  let s ← s.call throws .DisableRawInput
  pure { s with rawInputEnabled := false }

/-- `Game::Game()`. `members` is the state the members' own initialisers leave (they are
outside `Game.cpp`); `XMMatrixPerspectiveLH` is the DirectXMath function. -/
def Game.ctor (throws : List (GameCall F M) → GameCall F M → Bool)
    (XMMatrixPerspectiveLH : F → F → F → F → M) (members : GameState F M) :
    Except (Stop F M) (GameState F M) := do
  let s ← members.call throws (.WindowCtor 1600 900 "Annihilargh")
  let s ← s.call throws (.LightCtor 0.5)
  let s ← Window.EnableMousePointer throws s
  let s ← Mouse.DisableRawInput throws s
  s.call throws (.SetProjection (XMMatrixPerspectiveLH 1.0 (9.0 / 16.0) 0.5 40.0))

/-- The body of the `while` loop of `Game::Tick`: what is done with one event read from
the keyboard. -/
def Game.onKeyEvent (throws : List (GameCall F M) → GameCall F M → Bool) (event : KeyEvent)
    (s : GameState F M) : Except (Stop F M) (GameState F M) :=
  if event.IsPress && event.GetCode == VK_ESCAPE then
    if s.pointerEnabled then do
      let s ← Window.DisableMousePointer throws s
      Mouse.EnableRawInput throws s
    else do
      let s ← Window.EnableMousePointer throws s
      Mouse.DisableRawInput throws s
  else pure s

/-- Modelled from the spec: `Keyboard::ReadKey()` is not among the sources; the keyboard
holds a queue of events, the call takes the front event off the queue and returns it,
and returns nothing (`std::nullopt`) when the queue is empty. -/
def Keyboard.ReadKey (throws : List (GameCall F M) → GameCall F M → Bool)
    (s : GameState F M) : Except (Stop F M) (Option KeyEvent × GameState F M) := do
  let s ← s.call throws .ReadKey
  pure (s.keyQueue.head?, { s with keyQueue := s.keyQueue.tail })

/-- The `while(const auto event = window.keyboard.ReadKey())` loop of `Game::Tick`.
`fuel` bounds the number of `ReadKey` calls; `Tick` passes one more than the number of
queued events, which is what the loop needs (`keyLoop_fuel`). -/
def Game.keyLoop (throws : List (GameCall F M) → GameCall F M → Bool) :
    Nat → GameState F M → Except (Stop F M) (GameState F M)
  | 0, _ => .error .outOfFuel
  | fuel + 1, s => do
    let (event, s) ← Keyboard.ReadKey throws s
    match event with
    | none => pure s
    | some event => do
      let s ← Game.onKeyEvent throws event s
      Game.keyLoop throws fuel s

/-- `Game::ShowPerformanceWindow()`. -/
def Game.ShowPerformanceWindow (throws : List (GameCall F M) → GameCall F M → Bool)
    (inp : FrameInput F M) (s : GameState F M) : Except (Stop F M) (GameState F M) := do
  let s ← s.call throws (.ImGuiBegin "Performance")
  let s ←
    (if inp.ImGuiBegin "Performance" then
      s.call throws (.ImGuiTextFloats "Application average %.3f ms/frame (%.1f FPS)"
        [1000.0 / inp.Framerate, inp.Framerate])
    else pure s)
  s.call throws .ImGuiEnd

/-- Modelled from the spec: `Mouse::ReadRawDelta()` is not among the sources; the mouse
holds a queue of raw deltas, the call takes the front one off the queue and returns it,
and returns nothing when the queue is empty. -/
def Mouse.ReadRawDelta (throws : List (GameCall F M) → GameCall F M → Bool)
    (s : GameState F M) : Except (Stop F M) (Option (Int × Int) × GameState F M) := do
  let s ← s.call throws .ReadRawDelta
  pure (s.rawDeltaQueue.head?, { s with rawDeltaQueue := s.rawDeltaQueue.tail })

/-- The `while(const auto delta = window.mouse.ReadRawDelta())` loop of
`Game::ShowRawInputWindow`. `fuel` bounds the number of `ReadRawDelta` calls. -/
def Game.rawDeltaLoop (throws : List (GameCall F M) → GameCall F M → Bool) :
    Nat → GameState F M → Except (Stop F M) (GameState F M)
  | 0, _ => .error .outOfFuel
  | fuel + 1, s => do
    let (delta, s) ← Mouse.ReadRawDelta throws s
    match delta with
    | none => pure s
    | some delta =>
      Game.rawDeltaLoop throws fuel
        { s with x := wrapInt32 (s.x + delta.1), y := wrapInt32 (s.y + delta.2) }

/-- `Game::ShowRawInputWindow()`. -/
def Game.ShowRawInputWindow (throws : List (GameCall F M) → GameCall F M → Bool)
    (inp : FrameInput F M) (s : GameState F M) : Except (Stop F M) (GameState F M) := do
  let s ← Game.rawDeltaLoop throws (s.rawDeltaQueue.length + 1) s
  let s ← s.call throws (.ImGuiBegin "Raw Input")
  let s ←
    (if inp.ImGuiBegin "Raw Input" then
      s.call throws (.ImGuiTextInts "Accumulated (x,y): (%d,%d)" [s.x, s.y])
    else pure s)
  s.call throws .ImGuiEnd

/-- `Game::Tick()`. -/
def Game.Tick (throws : List (GameCall F M) → GameCall F M → Bool) (inp : FrameInput F M)
    (s : GameState F M) : Except (Stop F M) (GameState F M) := do
  let s ← s.call throws .TimerReset
  let s ← s.call throws (.BeginFrame 0.05 0.05 0.05)
  let s ← s.call throws (.SetCamera inp.cameraMatrix)
  let s ← s.call throws (.LightBind inp.cameraMatrix)
  let s ← s.call throws .NanosuitDraw
  let s ← s.call throws .LightDraw
  let s ← Game.keyLoop throws (s.keyQueue.length + 1) s
  -- spawns imgui windows
  let s ← s.call throws .CameraDisplayControlGUI
  let s ← s.call throws .LightDisplayControlGUI
  let s ← s.call throws .NanosuitShowWindow
  let s ← Game.ShowPerformanceWindow throws inp s
  let s ← Game.ShowRawInputWindow throws inp s
  s.call throws .EndFrame

/-- The states of a running `Game`: the one the constructor leaves, and from any of them
the one after `Window::ProcessMessages` has put events into the input queues (it leaves
the flags alone: they change only in the Enable/Disable calls) and the one after a `Tick`
that returned. This is the loop of `Game::BeginPlay`. -/
inductive Game.Reachable (XMMatrixPerspectiveLH : F → F → F → F → M) :
    GameState F M → Prop
  | ctor (throws : List (GameCall F M) → GameCall F M → Bool) (members s : GameState F M) :
      Game.ctor throws XMMatrixPerspectiveLH members = .ok s →
      Game.Reachable XMMatrixPerspectiveLH s
  | ProcessMessages (s : GameState F M) (keys : List KeyEvent) (deltas : List (Int × Int)) :
      Game.Reachable XMMatrixPerspectiveLH s →
      Game.Reachable XMMatrixPerspectiveLH
        { s with keyQueue := s.keyQueue ++ keys, rawDeltaQueue := s.rawDeltaQueue ++ deltas }
  | Tick (throws : List (GameCall F M) → GameCall F M → Bool) (inp : FrameInput F M)
      (s s1 : GameState F M) :
      Game.Reachable XMMatrixPerspectiveLH s →
      Game.Tick throws inp s = .ok s1 →
      Game.Reachable XMMatrixPerspectiveLH s1

/-- The number of Escape key-press events in a queue. -/
def escapePresses (queue : List KeyEvent) : Nat :=
  (queue.filter KeyEvent.isEscapePress).length

end GameCpp

/-- The characters `std::hex << std::uppercase` can print. -/
def upperHexDigits : List Char :=
  ['0', '1', '2', '3', '4', '5', '6', '7', '8', '9', 'A', 'B', 'C', 'D', 'E', 'F']

/-- A text contains a part when the part occurs in it as a contiguous piece. -/
def Contains (text part : String) : Prop := ∃ pre post : String, text = pre ++ part ++ post

/-- A sample environment: a description table with one entry, and the usual
file-and-line origin text. -/
def sampleEnv : Env :=
  { TranslateErrorCode := fun hr =>
      if hr = DXGI_ERROR_DEVICE_REMOVED then "The GPU device instance has been suspended."
      else "Unidentified error code"
    GetOriginString := fun line file => "[File] " ++ file ++ "\n" ++ "[Line] " ++ formatDec line }

/-- A sample anomaly, as the constructor of `Graphics` would throw it. -/
def sampleAnomaly : AnomalyHresult :=
  AnomalyHresult.ctor 92 "Graphics.cpp" DXGI_ERROR_DEVICE_REMOVED

/-- The name of the backend function a call goes to. -/
def D3DCall.name {F : Type} : D3DCall F → String
  | .D3D11CreateDeviceAndSwapChain _ _ _ _ => "D3D11CreateDeviceAndSwapChain"
  | .GetBuffer _ _ => "GetBuffer"
  | .CreateRenderTargetView _ _ => "CreateRenderTargetView"
  | .Present _ _ _ => "Present"
  | .GetDeviceRemovedReason _ => "GetDeviceRemovedReason"
  | .ClearRenderTargetView _ _ _ => "ClearRenderTargetView"
  | .CreateBuffer _ _ _ => "CreateBuffer"
  | .IASetVertexBuffers _ _ _ _ _ _ => "IASetVertexBuffers"
  | .D3DReadFileToBlob _ => "D3DReadFileToBlob"
  | .CreatePixelShader _ _ => "CreatePixelShader"
  | .PSSetShader _ _ => "PSSetShader"
  | .CreateVertexShader _ _ => "CreateVertexShader"
  | .VSSetShader _ _ => "VSSetShader"
  | .CreateInputLayout _ _ _ => "CreateInputLayout"
  | .IASetInputLayout _ _ => "IASetInputLayout"
  | .OMSetRenderTargets _ _ _ => "OMSetRenderTargets"
  | .RSSetViewports _ _ _ => "RSSetViewports"
  | .IASetPrimitiveTopology _ _ => "IASetPrimitiveTopology"
  | .Draw _ _ _ => "Draw"

/-- A `float` expression as the source writes it, left unevaluated; used where a concrete
type of floats is needed. -/
inductive FloatTerm
  | literal (mantissa : Nat) (exponentSign : Bool) (decimalExponent : Nat)
  | neg (a : FloatTerm)
  | div (a b : FloatTerm)
  deriving DecidableEq, Repr

instance : OfScientific FloatTerm := ⟨FloatTerm.literal⟩

instance : Neg FloatTerm := ⟨FloatTerm.neg⟩

instance : Div FloatTerm := ⟨FloatTerm.div⟩

/-- `DXGI_ERROR_DEVICE_HUNG`, one of the reasons `GetDeviceRemovedReason` reports. -/
def DXGI_ERROR_DEVICE_HUNG : HRESULT := 0x887A0006 - 2 ^ 32

/-- `E_OUTOFMEMORY`, an ordinary failure code. -/
def E_OUTOFMEMORY : HRESULT := 0x8007000E - 2 ^ 32

/-- A backend on which every call succeeds (`S_OK`) and hands out distinct pointers. -/
def healthyBackend : Backend :=
  { D3D11CreateDeviceAndSwapChain := (0, 1, 2, 3)
    GetBuffer := (0, 4)
    CreateRenderTargetView := (0, 5)
    Present := 0
    GetDeviceRemovedReason := 0
    CreateBuffer := (0, 6)
    D3DReadFileToBlob := fun name => if name = "PixelShader.cso" then (0, 7) else (0, 8)
    CreatePixelShader := (0, 9)
    CreateVertexShader := (0, 10)
    CreateInputLayout := (0, 11) }

/-- A backend whose device has been removed because it hung. -/
def deviceRemovedBackend : Backend :=
  { healthyBackend with
    Present := DXGI_ERROR_DEVICE_REMOVED
    GetDeviceRemovedReason := DXGI_ERROR_DEVICE_HUNG }

/-- A backend that cannot read the vertex shader file and would also fail to create the
input layout. -/
def missingShaderBackend : Backend :=
  { healthyBackend with
    D3DReadFileToBlob := fun name =>
      if name = "PixelShader.cso" then (0, 7) else (0x80070002 - 2 ^ 32, 0)
    CreateInputLayout := (E_OUTOFMEMORY, 0) }

/-- The `Graphics` object the constructor builds on the healthy backend. -/
def sampleGraphics : Graphics :=
  { pDevice := 2, pSwapChain := 1, pDeviceContext := 3, pTargetView := 5 }

/-- A run threw an `AnomalyHresult` carrying the status `hr`, and the backend calls it
had issued by then are exactly those named by `names`, in that order. -/
def Run.threwAfter {F α : Type} (run : Run F α) (hr : HRESULT) (names : List String) : Prop :=
  (∃ a, run.result = .error a ∧ a.cls = .AnomalyHresult ∧ a.GetErrorCode = hr)
    ∧ run.calls.map D3DCall.name = names

/-- A backend on which `GetBuffer` fails and `CreateRenderTargetView` would fail too. -/
def noBackBufferBackend : Backend :=
  { healthyBackend with
    GetBuffer := (E_OUTOFMEMORY, 0)
    CreateRenderTargetView := (DXGI_ERROR_DEVICE_REMOVED, 0) }

/-- A collaborator set on which no call throws. -/
def neverThrows {F M : Type} : List (GameCall F M) → GameCall F M → Bool := fun _ _ => false

/-- A stand-in for `XMMatrixPerspectiveLH`: the matrix is kept as the list of its four
arguments. -/
def samplePerspective (w h n f : FloatTerm) : List FloatTerm := [w, h, n, f]

/-- A `Game` whose members are freshly initialised: flags off, queues empty. -/
def sampleMembers : GameState FloatTerm (List FloatTerm) :=
  { pointerEnabled := false, rawInputEnabled := false, keyQueue := [], rawDeltaQueue := []
    x := 0, y := 0, log := [] }

/-- Five key events as `Window::ProcessMessages` may queue them: three are Escape presses,
one is the press of another key, one is the release of Escape. -/
def sampleKeys : List KeyEvent :=
  [⟨true, 27⟩, ⟨true, 65⟩, ⟨false, 27⟩, ⟨true, 27⟩, ⟨true, 27⟩]

/-- One raw mouse delta as `Window::ProcessMessages` may queue it. -/
def sampleDeltas : List (Int × Int) := [(3, -4)]

/-- One frame's inputs: an empty matrix, every ImGui window open, 60 frames a second. -/
def sampleFrame : FrameInput FloatTerm (List FloatTerm) :=
  { cameraMatrix := [], ImGuiBegin := fun _ => true, Framerate := 60.0 }

/-! ## Lemmas on number formatting -/

theorem hexUpperValue_hexDigitUpper (d : Nat) (h : d < 16) :
    hexUpperValue (hexDigitUpper d) = some d := by
  interval_cases d <;> decide

theorem decValue_decDigit (d : Nat) (h : d < 10) : decValue (decDigit d) = some d := by
  interval_cases d <;> decide

theorem hexDigitUpper_mem (d : Nat) (h : d < 16) : hexDigitUpper d ∈ upperHexDigits := by
  interval_cases d <;> decide

theorem digitsAux_foldl (base : Nat) (digit : Nat → Char) (value : Char → Option Nat)
    (hb : 1 < base) (hv : ∀ d, d < base → value (digit d) = some d) :
    ∀ (fuel n : Nat) (acc : List Char), n < fuel →
      (digitsAux base digit fuel n acc).foldl (readStep base value) (some 0)
        = acc.foldl (readStep base value) (some n) := by
  intro fuel
  induction fuel with
  | zero => intro n acc h; omega
  | succ fuel ih =>
    intro n acc h
    have hmod : n % base < base := Nat.mod_lt _ (by omega)
    unfold digitsAux
    split
    · rename_i hz
      have hlt : n < base := by
        rcases Nat.lt_or_ge n base with h1 | h1
        · exact h1
        · have := Nat.div_pos h1 (by omega); omega
      simp [List.foldl, readStep, hv _ hlt, Nat.mod_eq_of_lt hlt]
    · rename_i hz
      have hdiv : n / base < n := Nat.div_lt_self (by
        rcases Nat.eq_zero_or_pos n with h0 | h0
        · subst h0; simp at hz
        · exact h0) hb
      rw [ih (n / base) _ (by omega)]
      simp [List.foldl, readStep, hv _ hmod, Nat.div_add_mod']

theorem digitsAux_ne_nil (base : Nat) (digit : Nat → Char) :
    ∀ (fuel n : Nat) (acc : List Char), (0 < fuel ∨ acc ≠ []) →
      digitsAux base digit fuel n acc ≠ [] := by
  intro fuel
  induction fuel with
  | zero => intro n acc h; rcases h with h | h; · omega
            simpa [digitsAux] using h
  | succ fuel ih =>
    intro n acc _
    unfold digitsAux
    split
    · simp
    · exact ih _ _ (Or.inr (by simp))

theorem digitsAux_mem (base : Nat) (digit : Nat → Char) (hb : 0 < base) :
    ∀ (fuel n : Nat) (acc : List Char) (c : Char), c ∈ digitsAux base digit fuel n acc →
      c ∈ acc ∨ ∃ d, d < base ∧ c = digit d := by
  intro fuel
  induction fuel with
  | zero => intro n acc c h; left; simpa [digitsAux] using h
  | succ fuel ih =>
    intro n acc c h
    have hmod : n % base < base := Nat.mod_lt _ hb
    unfold digitsAux at h
    split at h
    · rcases List.mem_cons.mp h with h | h
      · exact Or.inr ⟨_, hmod, h⟩
      · exact Or.inl h
    · rcases ih _ _ _ h with h | h
      · rcases List.mem_cons.mp h with h | h
        · exact Or.inr ⟨_, hmod, h⟩
        · exact Or.inl h
      · exact Or.inr h

theorem readNumeral_digitsAux (base : Nat) (digit : Nat → Char) (value : Char → Option Nat)
    (hb : 1 < base) (hv : ∀ d, d < base → value (digit d) = some d) (n : Nat) :
    readNumeral base value (digitsAux base digit (n + 1) n []) = some n := by
  have hne := digitsAux_ne_nil base digit (n + 1) n [] (Or.inl (by omega))
  have hf := digitsAux_foldl base digit value hb hv (n + 1) n [] (by omega)
  cases hd : digitsAux base digit (n + 1) n [] with
  | nil => exact absurd hd hne
  | cons c cs =>
    rw [hd] at hf
    simpa [readNumeral] using hf

theorem readNumeral_formatHexUpper (n : Nat) :
    readNumeral 16 hexUpperValue (formatHexUpper n).data = some n :=
  readNumeral_digitsAux 16 hexDigitUpper hexUpperValue (by omega)
    hexUpperValue_hexDigitUpper n

theorem readNumeral_formatDec (n : Nat) :
    readNumeral 10 decValue (formatDec n).data = some n :=
  readNumeral_digitsAux 10 decDigit decValue (by omega) decValue_decDigit n

theorem formatHexUpper_upper (n : Nat) (c : Char) (h : c ∈ (formatHexUpper n).data) :
    c ∈ upperHexDigits := by
  rcases digitsAux_mem 16 hexDigitUpper (by omega) _ _ _ _ h with h | ⟨d, hd, rfl⟩
  · simp at h
  · exact hexDigitUpper_mem d hd

/-! ## Lemmas on `what()` -/

theorem what_self_format (env : Env) (a : AnomalyHresult) :
    (a.what env).self.format env = a.format env := rfl

theorem what_self_hr (env : Env) (a : AnomalyHresult) : (a.what env).self.hr = a.hr := rfl

theorem whatTimes_length (env : Env) :
    ∀ (n : Nat) (a : AnomalyHresult), (AnomalyHresult.whatTimes env n a).1.length = n := by
  intro n
  induction n with
  | zero => intro a; rfl
  | succ n ih => intro a; simp [AnomalyHresult.whatTimes, ih]

theorem whatTimes_text (env : Env) :
    ∀ (n : Nat) (a : AnomalyHresult) (t : String),
      t ∈ (AnomalyHresult.whatTimes env n a).1 → t = a.format env := by
  intro n
  induction n with
  | zero => intro a t h; simp [AnomalyHresult.whatTimes] at h
  | succ n ih =>
    intro a t h
    simp only [AnomalyHresult.whatTimes, List.mem_cons] at h
    rcases h with h | h
    · exact h
    · rw [ih _ _ h, what_self_format]

theorem whatTimes_format (env : Env) :
    ∀ (n : Nat) (a : AnomalyHresult),
      (AnomalyHresult.whatTimes env n a).2.format env = a.format env
        ∧ (AnomalyHresult.whatTimes env n a).2.hr = a.hr := by
  intro n
  induction n with
  | zero => intro a; exact ⟨rfl, rfl⟩
  | succ n ih =>
    intro a
    simp only [AnomalyHresult.whatTimes]
    exact ⟨(ih _).1.trans (what_self_format env a), (ih _).2.trans (what_self_hr env a)⟩

/-! ## Claims about the anomaly text -/

/-- C3: for every anomaly object (any class, line, file, status code and buffer content)
and every number `n` of calls of `what()` in a row, all `n` returned texts are the same
text, and that text contains the type label, the error code in hexadecimal and in
decimal, the description `GetErrorString` returns and the origin string
`GetOriginString` returns. -/
theorem C3_what_stable_and_complete (env : Env) (a : AnomalyHresult) (n : Nat) :
    (AnomalyHresult.whatTimes env n a).1.length = n
      ∧ (∀ t, t ∈ (AnomalyHresult.whatTimes env n a).1 → t = (a.what env).text)
      ∧ Contains (a.what env).text a.GetType
      ∧ Contains (a.what env).text (formatHexUpper (toUnsignedLong a.GetErrorCode))
      ∧ Contains (a.what env).text (formatDec (toUnsignedLong a.GetErrorCode))
      ∧ Contains (a.what env).text (a.GetErrorString env)
      ∧ Contains (a.what env).text (a.GetOriginString env) := by
  refine ⟨whatTimes_length env n a, fun t ht => whatTimes_text env n a t ht, ?_, ?_, ?_, ?_, ?_⟩
  · exact ⟨"", "\n" ++ "Error Code: 0x" ++ formatHexUpper (toUnsignedLong a.GetErrorCode)
      ++ " (" ++ formatDec (toUnsignedLong a.GetErrorCode) ++ ")" ++ "\n"
      ++ "Error String: " ++ a.GetErrorString env ++ "\n" ++ a.GetOriginString env,
      by simp [AnomalyHresult.what, AnomalyHresult.format, String.append_assoc]⟩
  · exact ⟨a.GetType ++ "\n" ++ "Error Code: 0x",
      " (" ++ formatDec (toUnsignedLong a.GetErrorCode) ++ ")" ++ "\n"
      ++ "Error String: " ++ a.GetErrorString env ++ "\n" ++ a.GetOriginString env,
      by simp [AnomalyHresult.what, AnomalyHresult.format, String.append_assoc]⟩
  · exact ⟨a.GetType ++ "\n" ++ "Error Code: 0x"
      ++ formatHexUpper (toUnsignedLong a.GetErrorCode) ++ " (",
      ")" ++ "\n" ++ "Error String: " ++ a.GetErrorString env ++ "\n"
      ++ a.GetOriginString env,
      by simp [AnomalyHresult.what, AnomalyHresult.format, String.append_assoc]⟩
  · exact ⟨a.GetType ++ "\n" ++ "Error Code: 0x"
      ++ formatHexUpper (toUnsignedLong a.GetErrorCode) ++ " ("
      ++ formatDec (toUnsignedLong a.GetErrorCode) ++ ")" ++ "\n" ++ "Error String: ",
      "\n" ++ a.GetOriginString env,
      by simp [AnomalyHresult.what, AnomalyHresult.format, String.append_assoc]⟩
  · exact ⟨a.GetType ++ "\n" ++ "Error Code: 0x"
      ++ formatHexUpper (toUnsignedLong a.GetErrorCode) ++ " ("
      ++ formatDec (toUnsignedLong a.GetErrorCode) ++ ")" ++ "\n" ++ "Error String: "
      ++ a.GetErrorString env ++ "\n", "",
      by simp [AnomalyHresult.what, AnomalyHresult.format, String.append_assoc]⟩

/-- C4 as stated fails: on the sample anomaly the second call of `what()` looks the
description up again and assigns to `whatBuffer` again, although the buffer already
holds the text. -/
theorem C4_second_what_formats_again :
    ((sampleAnomaly.what sampleEnv).self.whatBuffer = (sampleAnomaly.what sampleEnv).text)
      ∧ ((sampleAnomaly.what sampleEnv).self.what sampleEnv).effects
          = [.TranslateErrorCode DXGI_ERROR_DEVICE_REMOVED,
             .AssignWhatBuffer (sampleAnomaly.what sampleEnv).text]
      ∧ ((sampleAnomaly.what sampleEnv).self.what sampleEnv).effects ≠ [] := by
  refine ⟨rfl, rfl, ?_⟩
  simp [AnomalyHresult.what]

/-- C4, amended: construction does no formatting and leaves `whatBuffer` empty; every
call of `what()`, the first and each later one (after any number `k` of earlier calls),
formats the message anew: it looks the description up once, assigns the text to
`whatBuffer` once, and returns that text, the same text at every call. -/
theorem C4_what_formats_on_every_call (env : Env) (line : Nat) (file : String)
    (hr : HRESULT) (k : Nat) :
    (AnomalyHresult.ctor line file hr).whatBuffer = ""
      ∧ (((AnomalyHresult.whatTimes env k (AnomalyHresult.ctor line file hr)).2.what env).effects
          = [.TranslateErrorCode hr,
             .AssignWhatBuffer ((AnomalyHresult.ctor line file hr).format env)])
      ∧ ((AnomalyHresult.whatTimes env k (AnomalyHresult.ctor line file hr)).2.what env).text
          = (AnomalyHresult.ctor line file hr).format env
      ∧ ((AnomalyHresult.whatTimes env k
            (AnomalyHresult.ctor line file hr)).2.what env).self.whatBuffer
          = (AnomalyHresult.ctor line file hr).format env := by
  have h := whatTimes_format env k (AnomalyHresult.ctor line file hr)
  refine ⟨rfl, ?_, h.1, h.1⟩
  simp only [AnomalyHresult.what, h.1, h.2]
  rfl

/-- C9: for every 32-bit status code `hr`, the text of `what()` is the type label, a
newline, "Error Code: 0x", a numeral `H`, " (", a numeral `D`, ")" and the rest, where
`H` read as hexadecimal and `D` read as decimal denote the same natural number, namely
`hr` modulo 2^32 (`hr + 2^32` when `hr` is negative, `hr` otherwise), and every
character of `H` is one of `0`-`9`, `A`-`F`. -/
theorem C9_hex_and_decimal_agree (env : Env) (a : AnomalyHresult)
    (hlo : -2 ^ 31 ≤ a.hr) (hhi : a.hr < 2 ^ 31) :
    ∃ H D tail : String,
      (a.what env).text
          = a.GetType ++ "\n" ++ "Error Code: 0x" ++ H ++ " (" ++ D ++ ")" ++ "\n" ++ tail
        ∧ readNumeral 16 hexUpperValue H.data = some (toUnsignedLong a.hr)
        ∧ readNumeral 10 decValue D.data = some (toUnsignedLong a.hr)
        ∧ (∀ c, c ∈ H.data → c ∈ upperHexDigits)
        ∧ (toUnsignedLong a.hr : Int) = a.hr % 2 ^ 32
        ∧ (toUnsignedLong a.hr : Int) = (if a.hr < 0 then a.hr + 2 ^ 32 else a.hr) := by
  refine ⟨formatHexUpper (toUnsignedLong a.hr), formatDec (toUnsignedLong a.hr),
    "Error String: " ++ a.GetErrorString env ++ "\n" ++ a.GetOriginString env,
    ?_, readNumeral_formatHexUpper _, readNumeral_formatDec _,
    fun c hc => formatHexUpper_upper _ c hc, ?_, ?_⟩
  · simp only [AnomalyHresult.what, AnomalyHresult.format, AnomalyHresult.GetErrorCode,
      String.append_assoc]
  · unfold toUnsignedLong
    exact Int.toNat_of_nonneg (Int.emod_nonneg _ (by norm_num))
  · have key : ∀ x : Int, -2 ^ 31 ≤ x → x < 2 ^ 31 →
        x % 2 ^ 32 = if x < 0 then x + 2 ^ 32 else x := by
      intro x h1 h2
      split <;> omega
    unfold toUnsignedLong
    rw [Int.toNat_of_nonneg (Int.emod_nonneg _ (by norm_num))]
    exact key a.hr hlo hhi

/-- C9 at the device-removed code: both numerals of the sample anomaly's text denote
2289696773, which is 0x887A0005. -/
theorem C9_hex_and_decimal_agree_witness :
    (-2 ^ 31 ≤ sampleAnomaly.hr ∧ sampleAnomaly.hr < 2 ^ 31)
      ∧ ∃ H D tail : String,
        (sampleAnomaly.what sampleEnv).text
            = sampleAnomaly.GetType ++ "\n" ++ "Error Code: 0x" ++ H ++ " (" ++ D ++ ")"
                ++ "\n" ++ tail
          ∧ readNumeral 16 hexUpperValue H.data = some 2289696773
          ∧ readNumeral 10 decValue D.data = some 2289696773 := by
  refine ⟨by decide, ?_⟩
  obtain ⟨H, D, tail, h1, h2, h3, _⟩ :=
    C9_hex_and_decimal_agree sampleEnv sampleAnomaly (by decide) (by decide)
  exact ⟨H, D, tail, h1, h2, h3⟩

/-! ## Claims about `Graphics` -/

theorem FAILED_DEVICE_REMOVED : FAILED DXGI_ERROR_DEVICE_REMOVED = true := by decide

section GraphicsClaims

variable {F : Type}

/-- C1: for every failure code `hr` returned by `Present` in `EndFrame`: if `hr` is
`DXGI_ERROR_DEVICE_REMOVED`, a `DeviceRemovedAnomaly` is thrown whose error code is what
`GetDeviceRemovedReason` returns and whose label is "Graphics Anomaly: Device Removed";
for every other failure code a plain `AnomalyHresult` is thrown whose error code is `hr`
and whose label is "Graphics Anomaly". The device-removed code is itself a failure code,
and the two labels differ. -/
theorem C1_EndFrame_failure_kinds (be : Backend) (file : String) (gfx : Graphics)
    (hfail : FAILED be.Present = true) :
    (be.Present = DXGI_ERROR_DEVICE_REMOVED →
        ∃ a, (Graphics.EndFrame be file gfx : Run F Unit).result = .error a
          ∧ a.cls = .DeviceRemovedAnomaly
          ∧ a.GetErrorCode = be.GetDeviceRemovedReason
          ∧ a.GetType = "Graphics Anomaly: Device Removed")
      ∧ (be.Present ≠ DXGI_ERROR_DEVICE_REMOVED →
        ∃ a, (Graphics.EndFrame be file gfx : Run F Unit).result = .error a
          ∧ a.cls = .AnomalyHresult
          ∧ a.GetErrorCode = be.Present
          ∧ a.GetType = "Graphics Anomaly")
      ∧ FAILED DXGI_ERROR_DEVICE_REMOVED = true
      ∧ ("Graphics Anomaly: Device Removed" : String) ≠ "Graphics Anomaly" := by
  refine ⟨fun h => ?_, fun h => ?_, by decide, by decide⟩
  · exact ⟨DeviceRemovedAnomaly.ctor 128 file be.GetDeviceRemovedReason,
      by simp [Graphics.EndFrame, h, FAILED_DEVICE_REMOVED], rfl, rfl, rfl⟩
  · exact ⟨AnomalyHresult.ctor 130 file be.Present,
      by simp [Graphics.EndFrame, hfail, h], rfl, rfl, rfl⟩

/-- C1 on a backend whose device was removed because it hung: the anomaly thrown is a
`DeviceRemovedAnomaly` carrying `DXGI_ERROR_DEVICE_HUNG`, not the code `Present` returned. -/
theorem C1_EndFrame_failure_kinds_witness :
    FAILED deviceRemovedBackend.Present = true
      ∧ ∃ a, (Graphics.EndFrame deviceRemovedBackend "Graphics.cpp" sampleGraphics :
            Run FloatTerm Unit).result = .error a
          ∧ a.cls = .DeviceRemovedAnomaly
          ∧ a.GetErrorCode = DXGI_ERROR_DEVICE_HUNG
          ∧ a.GetType = "Graphics Anomaly: Device Removed" :=
  ⟨by decide,
    (C1_EndFrame_failure_kinds deviceRemovedBackend "Graphics.cpp" sampleGraphics
      (by decide)).1 rfl⟩

/-- C2: the constructor calls `D3D11CreateDeviceAndSwapChain`, `GetBuffer` and
`CreateRenderTargetView` in that order. Whatever the three results are, it throws an
`AnomalyHresult` carrying the status of the first call that fails and has then issued
no later call; it returns a `Graphics` exactly when all three calls succeed. -/
theorem C2_ctor_first_failure (be : Backend) (file : String) (ndebug : Bool) (hWnd : Handle) :
    (FAILED be.D3D11CreateDeviceAndSwapChain.1 = true →
        (∃ a, (Graphics.ctor be file ndebug hWnd : Run F Graphics).result = .error a
          ∧ a.cls = .AnomalyHresult ∧ a.GetErrorCode = be.D3D11CreateDeviceAndSwapChain.1)
        ∧ (Graphics.ctor be file ndebug hWnd : Run F Graphics).calls.map D3DCall.name
            = ["D3D11CreateDeviceAndSwapChain"])
      ∧ (FAILED be.D3D11CreateDeviceAndSwapChain.1 = false → FAILED be.GetBuffer.1 = true →
        (∃ a, (Graphics.ctor be file ndebug hWnd : Run F Graphics).result = .error a
          ∧ a.cls = .AnomalyHresult ∧ a.GetErrorCode = be.GetBuffer.1)
        ∧ (Graphics.ctor be file ndebug hWnd : Run F Graphics).calls.map D3DCall.name
            = ["D3D11CreateDeviceAndSwapChain", "GetBuffer"])
      ∧ (FAILED be.D3D11CreateDeviceAndSwapChain.1 = false → FAILED be.GetBuffer.1 = false →
          FAILED be.CreateRenderTargetView.1 = true →
        (∃ a, (Graphics.ctor be file ndebug hWnd : Run F Graphics).result = .error a
          ∧ a.cls = .AnomalyHresult ∧ a.GetErrorCode = be.CreateRenderTargetView.1)
        ∧ (Graphics.ctor be file ndebug hWnd : Run F Graphics).calls.map D3DCall.name
            = ["D3D11CreateDeviceAndSwapChain", "GetBuffer", "CreateRenderTargetView"])
      ∧ (FAILED be.D3D11CreateDeviceAndSwapChain.1 = false → FAILED be.GetBuffer.1 = false →
          FAILED be.CreateRenderTargetView.1 = false →
        (Graphics.ctor be file ndebug hWnd : Run F Graphics).calls.map D3DCall.name
            = ["D3D11CreateDeviceAndSwapChain", "GetBuffer", "CreateRenderTargetView"])
      ∧ ((∃ g, (Graphics.ctor be file ndebug hWnd : Run F Graphics).result = .ok g)
          ↔ (FAILED be.D3D11CreateDeviceAndSwapChain.1 = false
              ∧ FAILED be.GetBuffer.1 = false
              ∧ FAILED be.CreateRenderTargetView.1 = false)) := by
  obtain ⟨⟨r1, sc, dev, ctx⟩, ⟨r2, bb⟩, ⟨r3, tv⟩, pr, rr, cb, rf, ps, vs, il⟩ := be
  cases h1 : FAILED r1 <;> cases h2 : FAILED r2 <;> cases h3 : FAILED r3 <;>
    simp [Graphics.ctor, h1, h2, h3, D3DCall.name, AnomalyHresult.ctor,
      AnomalyHresult.GetErrorCode]

/-- C5: `EndFrame` issues exactly one `Present`, as its first call, with synchronization
interval 1 (so at least 1) and flags 0, and it returns without throwing exactly when
that `Present` returns a status that is not a failure. -/
theorem C5_EndFrame_presents_once (be : Backend) (file : String) (gfx : Graphics) :
    (Graphics.EndFrame be file gfx : Run F Unit).calls.filter D3DCall.isPresent
        = [.Present gfx.pSwapChain 1 0]
      ∧ (Graphics.EndFrame be file gfx : Run F Unit).calls.head?
        = some (.Present gfx.pSwapChain 1 0)
      ∧ ((Graphics.EndFrame be file gfx : Run F Unit).result = .ok ()
          ↔ FAILED be.Present = false) := by
  by_cases h2 : be.Present = DXGI_ERROR_DEVICE_REMOVED
  · simp [Graphics.EndFrame, h2, FAILED_DEVICE_REMOVED, D3DCall.isPresent]
  · cases h1 : FAILED be.Present <;> simp [Graphics.EndFrame, h1, h2, D3DCall.isPresent]

/-- C6: for all `r`, `g`, `b`, `ClearBuffer(r, g, b)` issues exactly one backend call, a
clear of the object's render-target view with the colour `(r, g, b, 1.0)`, and leaves
every member of the `Graphics` object as it was. -/
theorem C6_ClearBuffer_single_clear [OfScientific F] (gfx : Graphics) (r g b : F) :
    (Graphics.ClearBuffer gfx r g b).1
        = [.ClearRenderTargetView gfx.pDeviceContext gfx.pTargetView [r, g, b, 1.0]]
      ∧ (Graphics.ClearBuffer gfx r g b).1.length = 1
      ∧ (Graphics.ClearBuffer gfx r g b).2 = gfx :=
  ⟨rfl, rfl, rfl⟩

/-- C8: in `DrawTestTriangle`, whatever its six fallible calls return (`CreateBuffer`,
`D3DReadFileToBlob` of the pixel shader, `CreatePixelShader`, `D3DReadFileToBlob` of the
vertex shader, `CreateVertexShader`, `CreateInputLayout`): when one fails, an
`AnomalyHresult` carrying the first failing status is thrown, the calls issued stop at
that call, and no `Draw` is submitted; when all six succeed the function returns, having
issued the fourteen calls below in order, with one `Draw`, the last call, for 3 vertices
from vertex 0, after the vertex buffer, both shaders, the input layout, the render
target, the viewport and the triangle-list topology were bound. -/
theorem C8_DrawTestTriangle_first_failure [OfScientific F] [Neg F] (be : Backend)
    (file : String) (gfx : Graphics) :
    (FAILED be.CreateBuffer.1 = true →
        (Graphics.DrawTestTriangle be file gfx : Run F Unit).threwAfter be.CreateBuffer.1
          ["CreateBuffer"])
      ∧ (FAILED be.CreateBuffer.1 = false →
          FAILED (be.D3DReadFileToBlob "PixelShader.cso").1 = true →
        (Graphics.DrawTestTriangle be file gfx : Run F Unit).threwAfter
          (be.D3DReadFileToBlob "PixelShader.cso").1
          ["CreateBuffer", "IASetVertexBuffers", "D3DReadFileToBlob"])
      ∧ (FAILED be.CreateBuffer.1 = false →
          FAILED (be.D3DReadFileToBlob "PixelShader.cso").1 = false →
          FAILED be.CreatePixelShader.1 = true →
        (Graphics.DrawTestTriangle be file gfx : Run F Unit).threwAfter be.CreatePixelShader.1
          ["CreateBuffer", "IASetVertexBuffers", "D3DReadFileToBlob", "CreatePixelShader"])
      ∧ (FAILED be.CreateBuffer.1 = false →
          FAILED (be.D3DReadFileToBlob "PixelShader.cso").1 = false →
          FAILED be.CreatePixelShader.1 = false →
          FAILED (be.D3DReadFileToBlob "VertexShader.cso").1 = true →
        (Graphics.DrawTestTriangle be file gfx : Run F Unit).threwAfter
          (be.D3DReadFileToBlob "VertexShader.cso").1
          ["CreateBuffer", "IASetVertexBuffers", "D3DReadFileToBlob", "CreatePixelShader",
           "PSSetShader", "D3DReadFileToBlob"])
      ∧ (FAILED be.CreateBuffer.1 = false →
          FAILED (be.D3DReadFileToBlob "PixelShader.cso").1 = false →
          FAILED be.CreatePixelShader.1 = false →
          FAILED (be.D3DReadFileToBlob "VertexShader.cso").1 = false →
          FAILED be.CreateVertexShader.1 = true →
        (Graphics.DrawTestTriangle be file gfx : Run F Unit).threwAfter be.CreateVertexShader.1
          ["CreateBuffer", "IASetVertexBuffers", "D3DReadFileToBlob", "CreatePixelShader",
           "PSSetShader", "D3DReadFileToBlob", "CreateVertexShader"])
      ∧ (FAILED be.CreateBuffer.1 = false →
          FAILED (be.D3DReadFileToBlob "PixelShader.cso").1 = false →
          FAILED be.CreatePixelShader.1 = false →
          FAILED (be.D3DReadFileToBlob "VertexShader.cso").1 = false →
          FAILED be.CreateVertexShader.1 = false →
          FAILED be.CreateInputLayout.1 = true →
        (Graphics.DrawTestTriangle be file gfx : Run F Unit).threwAfter be.CreateInputLayout.1
          ["CreateBuffer", "IASetVertexBuffers", "D3DReadFileToBlob", "CreatePixelShader",
           "PSSetShader", "D3DReadFileToBlob", "CreateVertexShader", "VSSetShader",
           "CreateInputLayout"])
      ∧ ((∃ a, (Graphics.DrawTestTriangle be file gfx : Run F Unit).result = .error a) →
        (Graphics.DrawTestTriangle be file gfx : Run F Unit).calls.filter D3DCall.isDraw = [])
      ∧ ((Graphics.DrawTestTriangle be file gfx : Run F Unit).result = .ok ()
          ↔ (FAILED be.CreateBuffer.1 = false
              ∧ FAILED (be.D3DReadFileToBlob "PixelShader.cso").1 = false
              ∧ FAILED be.CreatePixelShader.1 = false
              ∧ FAILED (be.D3DReadFileToBlob "VertexShader.cso").1 = false
              ∧ FAILED be.CreateVertexShader.1 = false
              ∧ FAILED be.CreateInputLayout.1 = false))
      ∧ ((Graphics.DrawTestTriangle be file gfx : Run F Unit).result = .ok () →
        (Graphics.DrawTestTriangle be file gfx : Run F Unit).calls.map D3DCall.name
            = ["CreateBuffer", "IASetVertexBuffers", "D3DReadFileToBlob", "CreatePixelShader",
               "PSSetShader", "D3DReadFileToBlob", "CreateVertexShader", "VSSetShader",
               "CreateInputLayout", "IASetInputLayout", "OMSetRenderTargets",
               "RSSetViewports", "IASetPrimitiveTopology", "Draw"]
          ∧ (Graphics.DrawTestTriangle be file gfx : Run F Unit).calls.filter D3DCall.isDraw
            = [.Draw gfx.pDeviceContext 3 0]
          ∧ (Graphics.DrawTestTriangle be file gfx : Run F Unit).calls.getLast?
            = some (.Draw gfx.pDeviceContext 3 0)
          ∧ D3DCall.IASetVertexBuffers gfx.pDeviceContext 0 1 be.CreateBuffer.2 8 0
            ∈ (Graphics.DrawTestTriangle be file gfx : Run F Unit).calls
          ∧ D3DCall.PSSetShader gfx.pDeviceContext be.CreatePixelShader.2
            ∈ (Graphics.DrawTestTriangle be file gfx : Run F Unit).calls
          ∧ D3DCall.VSSetShader gfx.pDeviceContext be.CreateVertexShader.2
            ∈ (Graphics.DrawTestTriangle be file gfx : Run F Unit).calls
          ∧ D3DCall.IASetInputLayout gfx.pDeviceContext be.CreateInputLayout.2
            ∈ (Graphics.DrawTestTriangle be file gfx : Run F Unit).calls
          ∧ D3DCall.OMSetRenderTargets gfx.pDeviceContext 1 gfx.pTargetView
            ∈ (Graphics.DrawTestTriangle be file gfx : Run F Unit).calls
          ∧ D3DCall.RSSetViewports gfx.pDeviceContext 1
              ({ Width := 800.0, Height := 600.0, MinDepth := 0.0, MaxDepth := 1.0
                 TopLeftX := 0.0, TopLeftY := 0.0 } : Viewport F)
            ∈ (Graphics.DrawTestTriangle be file gfx : Run F Unit).calls
          ∧ D3DCall.IASetPrimitiveTopology gfx.pDeviceContext
              "D3D11_PRIMITIVE_TOPOLOGY_TRIANGLELIST"
            ∈ (Graphics.DrawTestTriangle be file gfx : Run F Unit).calls) := by
  obtain ⟨cd, gb, rtv, pr, rr, ⟨r1, vb⟩, rf, ⟨r3, ps⟩, ⟨r5, vs⟩, ⟨r6, il⟩⟩ := be
  rcases hps : rf "PixelShader.cso" with ⟨r2, b2⟩
  rcases hvs : rf "VertexShader.cso" with ⟨r4, b4⟩
  cases h1 : FAILED r1 <;> cases h2 : FAILED r2 <;> cases h3 : FAILED r3 <;>
    cases h4 : FAILED r4 <;> cases h5 : FAILED r5 <;> cases h6 : FAILED r6 <;>
    simp [Graphics.DrawTestTriangle, Run.threwAfter, hps, hvs, h1, h2, h3, h4, h5, h6,
      D3DCall.name, D3DCall.isDraw, AnomalyHresult.ctor, AnomalyHresult.GetErrorCode]

end GraphicsClaims

/-! ## Lemmas on the frame loop -/

theorem bind_eq_ok {ε α β : Type} (x : Except ε α) (f : α → Except ε β) (b : β) :
    (x >>= f) = .ok b ↔ ∃ a, x = .ok a ∧ f a = .ok b := by
  cases x <;> simp [bind, Except.bind]

theorem pure_eq_ok {ε α : Type} (a b : α) : (pure a : Except ε α) = .ok b ↔ a = b := by
  simp [pure, Except.pure]

section GameLemmas

variable {F M : Type}

theorem call_eq_ok (throws : List (GameCall F M) → GameCall F M → Bool) (c : GameCall F M)
    (s s1 : GameState F M) :
    s.call throws c = .ok s1 ↔ throws s.log c = false ∧ s1 = { s with log := s.log ++ [c] } := by
  unfold GameState.call
  cases h : throws s.log c <;> simp [eq_comm]

theorem EnableMousePointer_eq_ok (throws : List (GameCall F M) → GameCall F M → Bool)
    (s s1 : GameState F M) (h : Window.EnableMousePointer throws s = .ok s1) :
    s1 = { s with log := s.log ++ [.EnableMousePointer], pointerEnabled := true } := by
  simp only [Window.EnableMousePointer, bind_eq_ok, call_eq_ok, pure_eq_ok] at h
  obtain ⟨a, ⟨_, rfl⟩, rfl⟩ := h
  rfl

theorem DisableMousePointer_eq_ok (throws : List (GameCall F M) → GameCall F M → Bool)
    (s s1 : GameState F M) (h : Window.DisableMousePointer throws s = .ok s1) :
    s1 = { s with log := s.log ++ [.DisableMousePointer], pointerEnabled := false } := by
  simp only [Window.DisableMousePointer, bind_eq_ok, call_eq_ok, pure_eq_ok] at h
  obtain ⟨a, ⟨_, rfl⟩, rfl⟩ := h
  rfl

theorem EnableRawInput_eq_ok (throws : List (GameCall F M) → GameCall F M → Bool)
    (s s1 : GameState F M) (h : Mouse.EnableRawInput throws s = .ok s1) :
    s1 = { s with log := s.log ++ [.EnableRawInput], rawInputEnabled := true } := by
  simp only [Mouse.EnableRawInput, bind_eq_ok, call_eq_ok, pure_eq_ok] at h
  obtain ⟨a, ⟨_, rfl⟩, rfl⟩ := h
  rfl

theorem DisableRawInput_eq_ok (throws : List (GameCall F M) → GameCall F M → Bool)
    (s s1 : GameState F M) (h : Mouse.DisableRawInput throws s = .ok s1) :
    s1 = { s with log := s.log ++ [.DisableRawInput], rawInputEnabled := false } := by
  simp only [Mouse.DisableRawInput, bind_eq_ok, call_eq_ok, pure_eq_ok] at h
  obtain ⟨a, ⟨_, rfl⟩, rfl⟩ := h
  rfl

theorem escapePresses_cons (e : KeyEvent) (rest : List KeyEvent) :
    escapePresses (e :: rest)
      = if e.isEscapePress then escapePresses rest + 1 else escapePresses rest := by
  unfold escapePresses
  cases h : e.isEscapePress <;> simp [List.filter, h]

theorem xor_parity_succ (p : Bool) (k : Nat) :
    xor (!p) (decide (k % 2 = 1)) = xor p (decide ((k + 1) % 2 = 1)) := by
  rcases Nat.mod_two_eq_zero_or_one k with h | h <;>
    cases p <;> simp [h, Nat.add_mod]

theorem onKeyEvent_eq_ok (throws : List (GameCall F M) → GameCall F M → Bool)
    (e : KeyEvent) (s s1 : GameState F M) (h : Game.onKeyEvent throws e s = .ok s1) :
    s1.keyQueue = s.keyQueue ∧ s1.rawDeltaQueue = s.rawDeltaQueue ∧ s1.x = s.x ∧ s1.y = s.y
      ∧ s1.pointerEnabled = (if e.isEscapePress then !s.pointerEnabled else s.pointerEnabled)
      ∧ s1.rawInputEnabled = (if e.isEscapePress then s.pointerEnabled else s.rawInputEnabled)
      ∧ ∃ new, s1.log = s.log ++ new ∧ ∀ c, c ∈ new → c.isInput = true := by
  have hesc : (e.IsPress && e.GetCode == VK_ESCAPE) = e.isEscapePress := rfl
  unfold Game.onKeyEvent at h
  rw [hesc] at h
  cases hE : e.isEscapePress
  · simp only [hE, pure_eq_ok, Bool.false_eq_true, if_false] at h
    subst h
    exact ⟨rfl, rfl, rfl, rfl, by simp, by simp, [], by simp, by simp⟩
  · cases hp : s.pointerEnabled
    · simp only [hE, hp, bind_eq_ok, Bool.false_eq_true, if_false, if_true] at h
      obtain ⟨m, hm, hb⟩ := h
      have e1 := EnableMousePointer_eq_ok throws _ _ hm
      subst e1
      have e2 := DisableRawInput_eq_ok throws _ _ hb
      subst e2
      refine ⟨rfl, rfl, rfl, rfl, by simp, by simp,
        [.EnableMousePointer, .DisableRawInput], by simp, ?_⟩
      intro c hc
      simp at hc
      rcases hc with rfl | rfl <;> rfl
    · simp only [hE, hp, bind_eq_ok, Bool.false_eq_true, if_false, if_true] at h
      obtain ⟨m, hm, hb⟩ := h
      have e1 := DisableMousePointer_eq_ok throws _ _ hm
      subst e1
      have e2 := EnableRawInput_eq_ok throws _ _ hb
      subst e2
      refine ⟨rfl, rfl, rfl, rfl, by simp, by simp,
        [.DisableMousePointer, .EnableRawInput], by simp, ?_⟩
      intro c hc
      simp at hc
      rcases hc with rfl | rfl <;> rfl

theorem ReadKey_eq_ok (throws : List (GameCall F M) → GameCall F M → Bool)
    (s s1 : GameState F M) (ev : Option KeyEvent)
    (h : Keyboard.ReadKey throws s = .ok (ev, s1)) :
    ev = s.keyQueue.head?
      ∧ s1 = { s with log := s.log ++ [.ReadKey], keyQueue := s.keyQueue.tail } := by
  simp only [Keyboard.ReadKey, bind_eq_ok, call_eq_ok, pure_eq_ok] at h
  obtain ⟨a, ⟨_, rfl⟩, h⟩ := h
  simp only [Prod.mk.injEq] at h
  exact ⟨h.1.symm, h.2.symm⟩

theorem ReadRawDelta_eq_ok (throws : List (GameCall F M) → GameCall F M → Bool)
    (s s1 : GameState F M) (d : Option (Int × Int))
    (h : Mouse.ReadRawDelta throws s = .ok (d, s1)) :
    d = s.rawDeltaQueue.head?
      ∧ s1 = { s with log := s.log ++ [.ReadRawDelta], rawDeltaQueue := s.rawDeltaQueue.tail } := by
  simp only [Mouse.ReadRawDelta, bind_eq_ok, call_eq_ok, pure_eq_ok] at h
  obtain ⟨a, ⟨_, rfl⟩, h⟩ := h
  simp only [Prod.mk.injEq] at h
  exact ⟨h.1.symm, h.2.symm⟩

theorem keyLoop_eq_ok (throws : List (GameCall F M) → GameCall F M → Bool) :
    ∀ (fuel : Nat) (s s1 : GameState F M),
      Game.keyLoop throws fuel s = .ok s1 →
      s1.keyQueue = [] ∧ s1.rawDeltaQueue = s.rawDeltaQueue ∧ s1.x = s.x ∧ s1.y = s.y
        ∧ s1.pointerEnabled
            = xor s.pointerEnabled (decide (escapePresses s.keyQueue % 2 = 1))
        ∧ s1.rawInputEnabled
            = (if escapePresses s.keyQueue = 0 then s.rawInputEnabled else !s1.pointerEnabled)
        ∧ ∃ new, s1.log = s.log ++ new ∧ ∀ c, c ∈ new → c.isInput = true := by
  intro fuel
  induction fuel with
  | zero =>
    intro s s1 h
    simp [Game.keyLoop] at h
  | succ fuel ih =>
    intro s s1 h
    simp only [Game.keyLoop, bind_eq_ok] at h
    obtain ⟨⟨ev, a⟩, hread, hrest⟩ := h
    obtain ⟨rfl, rfl⟩ := ReadKey_eq_ok throws s a ev hread
    cases hq : s.keyQueue with
    | nil =>
      simp only [hq, List.head?_nil, pure_eq_ok] at hrest
      subst hrest
      refine ⟨by simp, rfl, rfl, rfl, by simp [escapePresses], by simp [escapePresses],
        [.ReadKey], rfl, ?_⟩
      intro c hc
      simp at hc
      subst hc
      rfl
    | cons e rest =>
      simp only [hq, List.head?_cons, List.tail_cons, bind_eq_ok] at hrest
      obtain ⟨b, hb, hloop⟩ := hrest
      obtain ⟨h1, h2, h3, h4, h5, h6, new, h7, h8⟩ := ih b s1 hloop
      obtain ⟨g1, g2, g3, g4, g5, g6, new0, g7, g8⟩ := onKeyEvent_eq_ok throws e _ b hb
      have g1 : b.keyQueue = rest := g1
      rw [g1] at h5 h6
      rw [escapePresses_cons]
      refine ⟨h1, h2.trans g2, h3.trans g3, h4.trans g4, ?_, ?_,
        [.ReadKey] ++ new0 ++ new, ?_, ?_⟩
      · rw [h5, g5]
        cases hE : e.isEscapePress
        · simp
        · simpa using xor_parity_succ s.pointerEnabled (escapePresses rest)
      · rw [h6, g6]
        cases hE : e.isEscapePress
        · simp
        · simp only [if_true, Nat.add_one_ne_zero, if_false]
          split
          · rename_i hz
            rw [h5, g5, hz, hE]
            simp
          · rfl
      · rw [h7, g7]
        simp
      · intro c hc
        rcases List.mem_append.mp hc with hc | hc
        · rcases List.mem_append.mp hc with hc | hc
          · simp at hc
            subst hc
            rfl
          · exact g8 c hc
        · exact h8 c hc

theorem rawDeltaLoop_eq_ok (throws : List (GameCall F M) → GameCall F M → Bool) :
    ∀ (fuel : Nat) (s s1 : GameState F M),
      Game.rawDeltaLoop throws fuel s = .ok s1 →
      s1.pointerEnabled = s.pointerEnabled ∧ s1.rawInputEnabled = s.rawInputEnabled
        ∧ s1.keyQueue = s.keyQueue
        ∧ ∃ new, s1.log = s.log ++ new ∧ ∀ c, c ∈ new → c = .ReadRawDelta := by
  intro fuel
  induction fuel with
  | zero =>
    intro s s1 h
    simp [Game.rawDeltaLoop] at h
  | succ fuel ih =>
    intro s s1 h
    simp only [Game.rawDeltaLoop, bind_eq_ok] at h
    obtain ⟨⟨d, a⟩, hread, hrest⟩ := h
    obtain ⟨rfl, rfl⟩ := ReadRawDelta_eq_ok throws s a d hread
    cases hq : s.rawDeltaQueue with
    | nil =>
      simp only [hq, List.head?_nil, pure_eq_ok] at hrest
      subst hrest
      exact ⟨rfl, rfl, rfl, [.ReadRawDelta], rfl, by simp⟩
    | cons d rest =>
      simp only [hq, List.head?_cons] at hrest
      obtain ⟨h1, h2, h3, new, h4, h5⟩ := ih _ s1 hrest
      refine ⟨h1, h2, h3, .ReadRawDelta :: new, by simp [h4], ?_⟩
      intro c hc
      rcases List.mem_cons.mp hc with rfl | hc
      · rfl
      · exact h5 c hc

theorem ShowPerformanceWindow_eq_ok [OfScientific F] [Div F]
    (throws : List (GameCall F M) → GameCall F M → Bool) (inp : FrameInput F M)
    (s s1 : GameState F M) (h : Game.ShowPerformanceWindow throws inp s = .ok s1) :
    s1.pointerEnabled = s.pointerEnabled ∧ s1.rawInputEnabled = s.rawInputEnabled
      ∧ s1.keyQueue = s.keyQueue
      ∧ ∃ new, s1.log = s.log ++ new ∧ ∀ c, c ∈ new → c.isOverlay = true := by
  simp only [Game.ShowPerformanceWindow, bind_eq_ok, call_eq_ok] at h
  obtain ⟨a, ⟨_, rfl⟩, b, hb, _, rfl⟩ := h
  cases hopen : inp.ImGuiBegin "Performance"
  · simp only [hopen, Bool.false_eq_true, if_false, pure_eq_ok] at hb
    subst hb
    refine ⟨rfl, rfl, rfl, [.ImGuiBegin "Performance", .ImGuiEnd], by simp, ?_⟩
    intro c hc
    simp at hc
    rcases hc with rfl | rfl <;> rfl
  · simp only [hopen, if_true, call_eq_ok] at hb
    obtain ⟨_, rfl⟩ := hb
    refine ⟨rfl, rfl, rfl, [.ImGuiBegin "Performance",
      .ImGuiTextFloats "Application average %.3f ms/frame (%.1f FPS)"
        [1000.0 / inp.Framerate, inp.Framerate], .ImGuiEnd], by simp, ?_⟩
    intro c hc
    simp at hc
    rcases hc with rfl | rfl | rfl <;> rfl

theorem ShowRawInputWindow_eq_ok (throws : List (GameCall F M) → GameCall F M → Bool)
    (inp : FrameInput F M) (s s1 : GameState F M)
    (h : Game.ShowRawInputWindow throws inp s = .ok s1) :
    s1.pointerEnabled = s.pointerEnabled ∧ s1.rawInputEnabled = s.rawInputEnabled
      ∧ s1.keyQueue = s.keyQueue
      ∧ ∃ new, s1.log = s.log ++ new
          ∧ ∀ c, c ∈ new → (c.isOverlay = true ∨ c = .ReadRawDelta) := by
  simp only [Game.ShowRawInputWindow, bind_eq_ok, call_eq_ok] at h
  obtain ⟨a, ha, b, ⟨_, rfl⟩, d, hd, _, rfl⟩ := h
  obtain ⟨h1, h2, h3, new, h4, h5⟩ := rawDeltaLoop_eq_ok throws _ s a ha
  cases hopen : inp.ImGuiBegin "Raw Input"
  · simp only [hopen, Bool.false_eq_true, if_false, pure_eq_ok] at hd
    subst hd
    refine ⟨h1, h2, h3, new ++ [.ImGuiBegin "Raw Input", .ImGuiEnd], by simp [h4], ?_⟩
    intro c hc
    rcases List.mem_append.mp hc with hc | hc
    · exact Or.inr (h5 c hc)
    · simp at hc
      rcases hc with rfl | rfl <;> exact Or.inl rfl
  · simp only [hopen, if_true, call_eq_ok] at hd
    obtain ⟨_, rfl⟩ := hd
    refine ⟨h1, h2, h3, new ++ [.ImGuiBegin "Raw Input",
      .ImGuiTextInts "Accumulated (x,y): (%d,%d)" [a.x, a.y], .ImGuiEnd], by simp [h4], ?_⟩
    intro c hc
    rcases List.mem_append.mp hc with hc | hc
    · exact Or.inr (h5 c hc)
    · simp at hc
      rcases hc with rfl | rfl | rfl <;> exact Or.inl rfl

theorem Tick_eq_ok [OfScientific F] [Div F]
    (throws : List (GameCall F M) → GameCall F M → Bool) (inp : FrameInput F M)
    (s s1 : GameState F M) (h : Game.Tick throws inp s = .ok s1) :
    s1.pointerEnabled = xor s.pointerEnabled (decide (escapePresses s.keyQueue % 2 = 1))
      ∧ s1.rawInputEnabled
          = (if escapePresses s.keyQueue = 0 then s.rawInputEnabled else !s1.pointerEnabled)
      ∧ s1.keyQueue = []
      ∧ ∃ keys windows, s1.log
            = s.log ++ [.TimerReset, .BeginFrame 0.05 0.05 0.05, .SetCamera inp.cameraMatrix,
                .LightBind inp.cameraMatrix, .NanosuitDraw, .LightDraw]
              ++ keys
              ++ [.CameraDisplayControlGUI, .LightDisplayControlGUI, .NanosuitShowWindow]
              ++ windows ++ [.EndFrame]
          ∧ (∀ c, c ∈ keys → c.isInput = true)
          ∧ (∀ c, c ∈ windows → (c.isOverlay = true ∨ c = .ReadRawDelta)) := by
  simp only [Game.Tick, bind_eq_ok, call_eq_ok] at h
  obtain ⟨a1, ⟨_, rfl⟩, a2, ⟨_, rfl⟩, a3, ⟨_, rfl⟩, a4, ⟨_, rfl⟩, a5, ⟨_, rfl⟩,
    a6, ⟨_, rfl⟩, k, hk, b1, ⟨_, rfl⟩, b2, ⟨_, rfl⟩, b3, ⟨_, rfl⟩, p, hp, r, hr,
    _, rfl⟩ := h
  obtain ⟨k1, _, _, _, k5, k6, keys, k7, k8⟩ := keyLoop_eq_ok throws _ _ k hk
  obtain ⟨p1, p2, p3, perf, p4, p5⟩ := ShowPerformanceWindow_eq_ok throws inp _ p hp
  obtain ⟨r1, r2, r3, raw, r4, r5⟩ := ShowRawInputWindow_eq_ok throws inp _ r hr
  refine ⟨?_, ?_, ?_, keys, perf ++ raw, ?_, k8, ?_⟩
  · show r.pointerEnabled = _
    rw [r1, p1]
    exact k5
  · show r.rawInputEnabled = (if _ then _ else !r.pointerEnabled)
    rw [r2, p2, r1, p1]
    exact k6
  · show r.keyQueue = []
    rw [r3, p3]
    exact k1
  · show r.log ++ [GameCall.EndFrame] = _
    rw [r4, p4]
    simp only [k7, List.append_assoc, List.cons_append, List.nil_append]
  · intro c hc
    rcases List.mem_append.mp hc with hc | hc
    · exact Or.inl (p5 c hc)
    · exact r5 c hc

theorem ctor_eq_ok [OfScientific F] [Div F]
    (throws : List (GameCall F M) → GameCall F M → Bool)
    (XMMatrixPerspectiveLH : F → F → F → F → M) (members s1 : GameState F M)
    (h : Game.ctor throws XMMatrixPerspectiveLH members = .ok s1) :
    s1.pointerEnabled = true ∧ s1.rawInputEnabled = false
      ∧ s1.log = members.log ++ [.WindowCtor 1600 900 "Annihilargh", .LightCtor 0.5,
          .EnableMousePointer, .DisableRawInput,
          .SetProjection (XMMatrixPerspectiveLH 1.0 (9.0 / 16.0) 0.5 40.0)] := by
  simp only [Game.ctor, bind_eq_ok, call_eq_ok] at h
  obtain ⟨a1, ⟨_, rfl⟩, a2, ⟨_, rfl⟩, a3, h3, a4, h4, _, rfl⟩ := h
  have e3 := EnableMousePointer_eq_ok throws _ _ h3
  subst e3
  have e4 := DisableRawInput_eq_ok throws _ _ h4
  subst e4
  exact ⟨rfl, rfl, by simp⟩

theorem Reachable_flags [OfScientific F] [Div F]
    (XMMatrixPerspectiveLH : F → F → F → F → M) (s : GameState F M)
    (h : Game.Reachable XMMatrixPerspectiveLH s) :
    s.pointerEnabled = !s.rawInputEnabled := by
  induction h with
  | ctor throws members s hs =>
    obtain ⟨h1, h2, _⟩ := ctor_eq_ok throws XMMatrixPerspectiveLH members s hs
    rw [h1, h2]
    rfl
  | ProcessMessages s keys deltas _ ih => exact ih
  | Tick throws inp s s1 _ ht ih =>
    obtain ⟨h1, h2, _⟩ := Tick_eq_ok throws inp s s1 ht
    by_cases hz : escapePresses s.keyQueue = 0
    · rw [if_pos hz] at h2
      rw [h1, h2, hz, ih]
      simp
    · rw [if_neg hz] at h2
      rw [h2]
      simp

theorem ok_bind {ε α β : Type} (a : α) (f : α → Except ε β) :
    ((Except.ok a : Except ε α) >>= f) = f a := rfl

theorem call_of_never (throws : List (GameCall F M) → GameCall F M → Bool)
    (hnt : ∀ l c, throws l c = false) (c : GameCall F M) (s : GameState F M) :
    s.call throws c = .ok { s with log := s.log ++ [c] } := by
  simp [GameState.call, hnt]

theorem onKeyEvent_of_never (throws : List (GameCall F M) → GameCall F M → Bool)
    (hnt : ∀ l c, throws l c = false) (e : KeyEvent) (s : GameState F M) :
    ∃ s1, Game.onKeyEvent throws e s = .ok s1 := by
  unfold Game.onKeyEvent Window.DisableMousePointer Window.EnableMousePointer
    Mouse.EnableRawInput Mouse.DisableRawInput
  split
  · split <;> simp only [call_of_never throws hnt, ok_bind] <;> exact ⟨_, rfl⟩
  · exact ⟨_, rfl⟩

theorem ReadKey_of_never (throws : List (GameCall F M) → GameCall F M → Bool)
    (hnt : ∀ l c, throws l c = false) (s : GameState F M) :
    Keyboard.ReadKey throws s
      = .ok (s.keyQueue.head?,
          { s with log := s.log ++ [.ReadKey], keyQueue := s.keyQueue.tail }) := by
  simp only [Keyboard.ReadKey, call_of_never throws hnt, ok_bind]
  rfl

theorem ReadRawDelta_of_never (throws : List (GameCall F M) → GameCall F M → Bool)
    (hnt : ∀ l c, throws l c = false) (s : GameState F M) :
    Mouse.ReadRawDelta throws s
      = .ok (s.rawDeltaQueue.head?,
          { s with log := s.log ++ [.ReadRawDelta], rawDeltaQueue := s.rawDeltaQueue.tail }) := by
  simp only [Mouse.ReadRawDelta, call_of_never throws hnt, ok_bind]
  rfl

theorem keyLoop_of_never (throws : List (GameCall F M) → GameCall F M → Bool)
    (hnt : ∀ l c, throws l c = false) :
    ∀ (fuel : Nat) (s : GameState F M), s.keyQueue.length < fuel →
      ∃ s1, Game.keyLoop throws fuel s = .ok s1 := by
  intro fuel
  induction fuel with
  | zero => intro s h; omega
  | succ fuel ih =>
    intro s hlen
    simp only [Game.keyLoop, ReadKey_of_never throws hnt, ok_bind]
    cases hq : s.keyQueue with
    | nil => exact ⟨_, rfl⟩
    | cons e rest =>
      simp only [List.head?_cons, List.tail_cons]
      obtain ⟨b, hb⟩ := onKeyEvent_of_never throws hnt e
        { s with log := s.log ++ [.ReadKey], keyQueue := rest }
      have hbq : b.keyQueue = rest := (onKeyEvent_eq_ok throws e _ b hb).1
      rw [hb, ok_bind]
      apply ih b
      rw [hbq]
      rw [hq] at hlen
      simpa using hlen

theorem rawDeltaLoop_of_never (throws : List (GameCall F M) → GameCall F M → Bool)
    (hnt : ∀ l c, throws l c = false) :
    ∀ (fuel : Nat) (s : GameState F M), s.rawDeltaQueue.length < fuel →
      ∃ s1, Game.rawDeltaLoop throws fuel s = .ok s1 := by
  intro fuel
  induction fuel with
  | zero => intro s h; omega
  | succ fuel ih =>
    intro s hlen
    simp only [Game.rawDeltaLoop, ReadRawDelta_of_never throws hnt, ok_bind]
    cases hq : s.rawDeltaQueue with
    | nil => exact ⟨_, rfl⟩
    | cons d rest =>
      simp only [List.head?_cons, List.tail_cons]
      apply ih
      rw [hq] at hlen
      simpa using hlen

theorem ShowPerformanceWindow_of_never [OfScientific F] [Div F]
    (throws : List (GameCall F M) → GameCall F M → Bool)
    (hnt : ∀ l c, throws l c = false) (inp : FrameInput F M) (s : GameState F M) :
    ∃ s1, Game.ShowPerformanceWindow throws inp s = .ok s1 := by
  unfold Game.ShowPerformanceWindow
  cases hopen : inp.ImGuiBegin "Performance" <;>
    simp only [call_of_never throws hnt, ok_bind, Bool.false_eq_true, if_false, if_true] <;>
    exact ⟨_, rfl⟩

theorem ShowRawInputWindow_of_never (throws : List (GameCall F M) → GameCall F M → Bool)
    (hnt : ∀ l c, throws l c = false) (inp : FrameInput F M) (s : GameState F M) :
    ∃ s1, Game.ShowRawInputWindow throws inp s = .ok s1 := by
  unfold Game.ShowRawInputWindow
  obtain ⟨a, ha⟩ := rawDeltaLoop_of_never throws hnt (s.rawDeltaQueue.length + 1) s (by omega)
  rw [ha, ok_bind]
  cases hopen : inp.ImGuiBegin "Raw Input" <;>
    simp only [call_of_never throws hnt, ok_bind, Bool.false_eq_true, if_false, if_true] <;>
    exact ⟨_, rfl⟩

theorem Tick_of_never [OfScientific F] [Div F]
    (throws : List (GameCall F M) → GameCall F M → Bool)
    (hnt : ∀ l c, throws l c = false) (inp : FrameInput F M) (s : GameState F M) :
    ∃ s1, Game.Tick throws inp s = .ok s1 := by
  unfold Game.Tick
  simp only [call_of_never throws hnt, ok_bind]
  obtain ⟨k, hk⟩ := keyLoop_of_never throws hnt (s.keyQueue.length + 1)
    { s with log := s.log ++ [.TimerReset] ++ [.BeginFrame 0.05 0.05 0.05]
        ++ [.SetCamera inp.cameraMatrix] ++ [.LightBind inp.cameraMatrix]
        ++ [.NanosuitDraw] ++ [.LightDraw] } (Nat.lt_succ_self _)
  rw [hk, ok_bind]
  obtain ⟨p, hp⟩ := ShowPerformanceWindow_of_never throws hnt inp
    { k with log := k.log ++ [.CameraDisplayControlGUI] ++ [.LightDisplayControlGUI]
        ++ [.NanosuitShowWindow] }
  rw [hp, ok_bind]
  obtain ⟨r, hr⟩ := ShowRawInputWindow_of_never throws hnt inp p
  rw [hr, ok_bind]
  exact ⟨_, rfl⟩

theorem bind_eq_error {ε α β : Type} (x : Except ε α) (f : α → Except ε β) (e : ε) :
    (x >>= f) = .error e ↔ x = .error e ∨ ∃ a, x = .ok a ∧ f a = .error e := by
  cases x <;> simp [bind, Except.bind]

theorem call_fuel (throws : List (GameCall F M) → GameCall F M → Bool) (c : GameCall F M)
    (s : GameState F M) : s.call throws c ≠ .error .outOfFuel := by
  unfold GameState.call
  split <;> simp

theorem onKeyEvent_fuel (throws : List (GameCall F M) → GameCall F M → Bool)
    (e : KeyEvent) (s : GameState F M) : Game.onKeyEvent throws e s ≠ .error .outOfFuel := by
  intro h
  unfold Game.onKeyEvent Window.DisableMousePointer Window.EnableMousePointer
    Mouse.EnableRawInput Mouse.DisableRawInput at h
  split at h
  · split at h <;>
      simp [bind_eq_error, call_fuel, pure, Except.pure] at h
  · simp [pure, Except.pure] at h

theorem keyLoop_fuel (throws : List (GameCall F M) → GameCall F M → Bool) :
    ∀ (fuel : Nat) (s : GameState F M), s.keyQueue.length < fuel →
      Game.keyLoop throws fuel s ≠ .error .outOfFuel := by
  intro fuel
  induction fuel with
  | zero => intro s h; omega
  | succ fuel ih =>
    intro s hlen h
    simp only [Game.keyLoop, bind_eq_error] at h
    rcases h with h | ⟨⟨ev, a⟩, hread, h⟩
    · simp [Keyboard.ReadKey, bind_eq_error, call_fuel, pure, Except.pure] at h
    · obtain ⟨rfl, rfl⟩ := ReadKey_eq_ok throws s a ev hread
      cases hq : s.keyQueue with
      | nil => simp [hq, pure, Except.pure] at h
      | cons e rest =>
        simp only [hq, List.head?_cons, List.tail_cons, bind_eq_error] at h
        rcases h with h | ⟨b, hb, h⟩
        · exact onKeyEvent_fuel throws e _ h
        · have hbq : b.keyQueue = rest := (onKeyEvent_eq_ok throws e _ b hb).1
          refine ih b ?_ h
          rw [hbq]
          rw [hq] at hlen
          simpa using hlen

theorem rawDeltaLoop_fuel (throws : List (GameCall F M) → GameCall F M → Bool) :
    ∀ (fuel : Nat) (s : GameState F M), s.rawDeltaQueue.length < fuel →
      Game.rawDeltaLoop throws fuel s ≠ .error .outOfFuel := by
  intro fuel
  induction fuel with
  | zero => intro s h; omega
  | succ fuel ih =>
    intro s hlen h
    simp only [Game.rawDeltaLoop, bind_eq_error] at h
    rcases h with h | ⟨⟨d, a⟩, hread, h⟩
    · simp [Mouse.ReadRawDelta, bind_eq_error, call_fuel, pure, Except.pure] at h
    · obtain ⟨rfl, rfl⟩ := ReadRawDelta_eq_ok throws s a d hread
      cases hq : s.rawDeltaQueue with
      | nil => simp [hq, pure, Except.pure] at h
      | cons d rest =>
        simp only [hq, List.head?_cons, List.tail_cons] at h
        refine ih _ ?_ h
        rw [hq] at hlen
        simpa using hlen

theorem Tick_fuel [OfScientific F] [Div F]
    (throws : List (GameCall F M) → GameCall F M → Bool) (inp : FrameInput F M)
    (s : GameState F M) : Game.Tick throws inp s ≠ .error .outOfFuel := by
  intro h
  simp only [Game.Tick, bind_eq_error, call_fuel, call_eq_ok, false_or] at h
  obtain ⟨a1, ⟨_, rfl⟩, a2, ⟨_, rfl⟩, a3, ⟨_, rfl⟩, a4, ⟨_, rfl⟩, a5, ⟨_, rfl⟩,
    a6, ⟨_, rfl⟩, h⟩ := h
  rcases h with h | ⟨k, hk, b1, ⟨_, rfl⟩, b2, ⟨_, rfl⟩, b3, ⟨_, rfl⟩, h⟩
  · exact keyLoop_fuel throws _ _ (Nat.lt_succ_self _) h
  · rcases h with h | ⟨p, hp, h⟩
    · simp only [Game.ShowPerformanceWindow, bind_eq_error, call_fuel, call_eq_ok,
        false_or] at h
      obtain ⟨a, _, h⟩ := h
      rcases h with h | ⟨_, _, h⟩
      · split at h
        · exact call_fuel throws _ _ h
        · simp [pure, Except.pure] at h
      · exact h
    · rcases h with h | ⟨r, hr, h⟩
      · simp only [Game.ShowRawInputWindow, bind_eq_error, call_fuel, call_eq_ok,
          false_or] at h
        rcases h with h | ⟨a, _, b, _, h⟩
        · exact rawDeltaLoop_fuel throws _ _ (Nat.lt_succ_self _) h
        · rcases h with h | ⟨_, _, h⟩
          · split at h
            · exact call_fuel throws _ _ h
            · simp [pure, Except.pure] at h
          · exact h
      · exact h

theorem ctor_of_never [OfScientific F] [Div F]
    (throws : List (GameCall F M) → GameCall F M → Bool)
    (hnt : ∀ l c, throws l c = false) (XMMatrixPerspectiveLH : F → F → F → F → M)
    (members : GameState F M) :
    Game.ctor throws XMMatrixPerspectiveLH members
      = .ok { members with
              pointerEnabled := true
              rawInputEnabled := false
              log := members.log ++ [.WindowCtor 1600 900 "Annihilargh", .LightCtor 0.5,
                .EnableMousePointer, .DisableRawInput,
                .SetProjection (XMMatrixPerspectiveLH 1.0 (9.0 / 16.0) 0.5 40.0)] } := by
  simp only [Game.ctor, Window.EnableMousePointer, Mouse.DisableRawInput,
    call_of_never throws hnt, ok_bind, pure, Except.pure, List.append_assoc,
    List.cons_append, List.nil_append]

theorem ctor_fuel [OfScientific F] [Div F]
    (throws : List (GameCall F M) → GameCall F M → Bool)
    (XMMatrixPerspectiveLH : F → F → F → F → M) (members : GameState F M) :
    Game.ctor throws XMMatrixPerspectiveLH members ≠ .error .outOfFuel := by
  intro h
  simp [Game.ctor, Window.EnableMousePointer, Mouse.DisableRawInput, bind_eq_error,
    call_fuel, pure, Except.pure] at h

theorem isInput_not_camera (c : GameCall F M) (h : c.isInput = true) :
    c.isSetCamera = false ∧ c.isSetProjection = false := by
  cases c <;> simp_all [GameCall.isInput, GameCall.isSetCamera, GameCall.isSetProjection]

theorem isOverlay_not_camera (c : GameCall F M)
    (h : c.isOverlay = true ∨ c = .ReadRawDelta) :
    c.isSetCamera = false ∧ c.isSetProjection = false := by
  rcases h with h | rfl
  · cases c <;> simp_all [GameCall.isOverlay, GameCall.isSetCamera, GameCall.isSetProjection]
  · exact ⟨rfl, rfl⟩

end GameLemmas

/-! ## Claims about the frame loop -/

section GameClaims

variable {F M : Type} [OfScientific F] [Div F]

/-- C7: in every `Game::Tick` that returns, the calls made are, in order: the timer
reset, `BeginFrame(0.05, 0.05, 0.05)`, `SetCamera` with the camera matrix, the light bind
with the same matrix, the nanosuit's `Draw`, the light's `Draw`, then only window,
keyboard and mouse calls (the key loop), then the overlay windows (camera, light and
nanosuit windows followed by ImGui calls and raw-delta reads), and `EndFrame` last. Among
them there is exactly one `SetCamera` and no `SetProjection`. The constructor's own calls
contain `SetProjection` exactly once. When no collaborator throws, `Tick` returns and
the constructor returns, having made exactly its five calls, the last of them the one
`SetProjection`; neither ever stops for lack of loop fuel. -/
theorem C7_Tick_call_order (throws : List (GameCall F M) → GameCall F M → Bool)
    (XMMatrixPerspectiveLH : F → F → F → F → M) (inp : FrameInput F M) (s : GameState F M) :
    (∀ s1, Game.Tick throws inp s = .ok s1 →
        ∃ keys windows new,
          new = [.TimerReset, .BeginFrame 0.05 0.05 0.05, .SetCamera inp.cameraMatrix,
                  .LightBind inp.cameraMatrix, .NanosuitDraw, .LightDraw]
                ++ keys
                ++ [.CameraDisplayControlGUI, .LightDisplayControlGUI, .NanosuitShowWindow]
                ++ windows ++ [.EndFrame]
            ∧ s1.log = s.log ++ new
            ∧ (∀ c, c ∈ keys → c.isInput = true)
            ∧ (∀ c, c ∈ windows → (c.isOverlay = true ∨ c = .ReadRawDelta))
            ∧ new.filter GameCall.isSetCamera = [.SetCamera inp.cameraMatrix]
            ∧ new.filter GameCall.isSetProjection = [])
      ∧ (∀ members s1, Game.ctor throws XMMatrixPerspectiveLH members = .ok s1 →
        ∃ new,
          new = [.WindowCtor 1600 900 "Annihilargh", .LightCtor 0.5, .EnableMousePointer,
                  .DisableRawInput,
                  .SetProjection (XMMatrixPerspectiveLH 1.0 (9.0 / 16.0) 0.5 40.0)]
            ∧ s1.log = members.log ++ new
            ∧ new.filter GameCall.isSetProjection
                = [.SetProjection (XMMatrixPerspectiveLH 1.0 (9.0 / 16.0) 0.5 40.0)])
      ∧ ((∀ l c, throws l c = false) → ∃ s1, Game.Tick throws inp s = .ok s1)
      ∧ Game.Tick throws inp s ≠ .error .outOfFuel
      ∧ ((∀ l c, throws l c = false) → ∀ members,
        Game.ctor throws XMMatrixPerspectiveLH members
          = .ok { members with
                  pointerEnabled := true
                  rawInputEnabled := false
                  log := members.log ++ [.WindowCtor 1600 900 "Annihilargh", .LightCtor 0.5,
                    .EnableMousePointer, .DisableRawInput,
                    .SetProjection (XMMatrixPerspectiveLH 1.0 (9.0 / 16.0) 0.5 40.0)] })
      ∧ (∀ members, Game.ctor throws XMMatrixPerspectiveLH members ≠ .error .outOfFuel) := by
  refine ⟨fun s1 h => ?_, fun members s1 h => ?_, fun hnt => Tick_of_never throws hnt inp s,
    Tick_fuel throws inp s,
    fun hnt members => ctor_of_never throws hnt XMMatrixPerspectiveLH members,
    fun members => ctor_fuel throws XMMatrixPerspectiveLH members⟩
  · obtain ⟨_, _, _, keys, windows, hlog, hk, hw⟩ := Tick_eq_ok throws inp s s1 h
    have hk1 : keys.filter GameCall.isSetCamera = [] :=
      List.filter_eq_nil_iff.mpr (fun c hc => by simp [(isInput_not_camera c (hk c hc)).1])
    have hk2 : keys.filter GameCall.isSetProjection = [] :=
      List.filter_eq_nil_iff.mpr (fun c hc => by simp [(isInput_not_camera c (hk c hc)).2])
    have hw1 : windows.filter GameCall.isSetCamera = [] :=
      List.filter_eq_nil_iff.mpr (fun c hc => by simp [(isOverlay_not_camera c (hw c hc)).1])
    have hw2 : windows.filter GameCall.isSetProjection = [] :=
      List.filter_eq_nil_iff.mpr (fun c hc => by simp [(isOverlay_not_camera c (hw c hc)).2])
    refine ⟨keys, windows, _, rfl, ?_, hk, hw, ?_, ?_⟩
    · rw [hlog]
      simp only [List.append_assoc]
    · simp [List.filter_append, hk1, hw1, List.filter, GameCall.isSetCamera]
    · simp [List.filter_append, hk2, hw2, List.filter, GameCall.isSetProjection]
  · obtain ⟨_, _, hlog⟩ := ctor_eq_ok throws XMMatrixPerspectiveLH members s1 h
    exact ⟨_, rfl, hlog, by simp [List.filter, GameCall.isSetProjection]⟩

/-- C7 on a sample game on which nothing throws: the constructor returns a state whose log
holds `SetProjection` exactly once; after message processing has queued the sample
events, the frame started from that state returns, with `BeginFrame` and its three
literals 0.05 right after the timer reset, `EndFrame` last, and no `SetProjection` among
the frame's calls. -/
theorem C7_Tick_call_order_witness :
    ∃ s0 s1 keys windows,
      Game.ctor neverThrows samplePerspective sampleMembers = .ok s0
        ∧ s0.log.filter GameCall.isSetProjection
            = [.SetProjection (samplePerspective 1.0 (9.0 / 16.0) 0.5 40.0)]
        ∧ Game.Tick neverThrows sampleFrame
            { s0 with keyQueue := s0.keyQueue ++ sampleKeys
                      rawDeltaQueue := s0.rawDeltaQueue ++ sampleDeltas } = .ok s1
        ∧ s1.log = s0.log
            ++ ([.TimerReset, .BeginFrame 0.05 0.05 0.05, .SetCamera sampleFrame.cameraMatrix,
                  .LightBind sampleFrame.cameraMatrix, .NanosuitDraw, .LightDraw]
                ++ keys
                ++ [.CameraDisplayControlGUI, .LightDisplayControlGUI, .NanosuitShowWindow]
                ++ windows ++ [.EndFrame])
        ∧ s1.log.filter GameCall.isSetProjection
            = [.SetProjection (samplePerspective 1.0 (9.0 / 16.0) 0.5 40.0)] := by
  obtain ⟨_, hc, _, _, hctor, _⟩ :=
    C7_Tick_call_order neverThrows samplePerspective sampleFrame sampleMembers
  have h0 := hctor (fun _ _ => rfl) sampleMembers
  obtain ⟨new0, hnew0, hlog0, hproj0⟩ := hc sampleMembers _ h0
  have hfil0 : ∀ s0 : GameState FloatTerm (List FloatTerm), s0.log = sampleMembers.log ++ new0 →
      s0.log.filter GameCall.isSetProjection
        = [.SetProjection (samplePerspective 1.0 (9.0 / 16.0) 0.5 40.0)] := by
    intro s0 h
    rw [h, List.filter_append, hproj0]
    rfl
  obtain ⟨h1, _, h3, _⟩ :=
    C7_Tick_call_order neverThrows samplePerspective sampleFrame
      { ({ sampleMembers with
            pointerEnabled := true
            rawInputEnabled := false
            log := sampleMembers.log ++ [.WindowCtor 1600 900 "Annihilargh", .LightCtor 0.5,
              .EnableMousePointer, .DisableRawInput,
              .SetProjection (samplePerspective 1.0 (9.0 / 16.0) 0.5 40.0)] } :
          GameState FloatTerm (List FloatTerm)) with
        keyQueue := sampleMembers.keyQueue ++ sampleKeys
        rawDeltaQueue := sampleMembers.rawDeltaQueue ++ sampleDeltas }
  obtain ⟨s1, hs1⟩ := h3 (fun _ _ => rfl)
  obtain ⟨keys, windows, new, hnew, hlog, _, _, _, hproj⟩ := h1 s1 hs1
  refine ⟨_, s1, keys, windows, h0, hfil0 _ hlog0, hs1, hnew ▸ hlog, ?_⟩
  rw [hlog, List.filter_append, hproj, List.append_nil]
  exact hfil0 _ hlog0

/-- C10: with the pointer flag and the raw-input flag set by the Enable/Disable calls:
the constructor leaves the pointer enabled and raw input disabled; in every state the
running game reaches (after the constructor, after message processing, after every
`Tick` that returns) the pointer is enabled exactly when raw input is disabled; a `Tick`
started in such a state whose keyboard queue holds `k` Escape presses flips both flags
when `k` is odd and leaves both unchanged when `k` is even; an event that is not an
Escape press changes neither flag; and the key loop leaves the keyboard queue empty, so
it is empty when `Tick` goes on to the overlay and when `Tick` returns. When no
collaborator throws, the constructor does return, with exactly these flags and the
queues untouched, in a reachable state, and every `Tick` returns. -/
theorem C10_pointer_raw_input_flags (throws : List (GameCall F M) → GameCall F M → Bool)
    (XMMatrixPerspectiveLH : F → F → F → F → M) :
    (∀ members s1, Game.ctor throws XMMatrixPerspectiveLH members = .ok s1 →
        s1.pointerEnabled = true ∧ s1.rawInputEnabled = false)
      ∧ (∀ s, Game.Reachable XMMatrixPerspectiveLH s →
        (s.pointerEnabled = true ↔ s.rawInputEnabled = false))
      ∧ (∀ inp s s1, (s.pointerEnabled = true ↔ s.rawInputEnabled = false) →
          Game.Tick throws inp s = .ok s1 →
        (escapePresses s.keyQueue % 2 = 1 →
            s1.pointerEnabled = (!s.pointerEnabled)
              ∧ s1.rawInputEnabled = (!s.rawInputEnabled))
          ∧ (escapePresses s.keyQueue % 2 = 0 →
            s1.pointerEnabled = s.pointerEnabled ∧ s1.rawInputEnabled = s.rawInputEnabled)
          ∧ (s1.pointerEnabled = true ↔ s1.rawInputEnabled = false))
      ∧ (∀ e s s1, e.isEscapePress = false → Game.onKeyEvent throws e s = .ok s1 →
        s1.pointerEnabled = s.pointerEnabled ∧ s1.rawInputEnabled = s.rawInputEnabled)
      ∧ (∀ fuel s s1, Game.keyLoop throws fuel s = .ok s1 → s1.keyQueue = [])
      ∧ (∀ inp s s1, Game.Tick throws inp s = .ok s1 → s1.keyQueue = [])
      ∧ ((∀ l c, throws l c = false) → ∀ members,
        Game.ctor throws XMMatrixPerspectiveLH members
            = .ok { members with
                    pointerEnabled := true
                    rawInputEnabled := false
                    log := members.log ++ [.WindowCtor 1600 900 "Annihilargh", .LightCtor 0.5,
                      .EnableMousePointer, .DisableRawInput,
                      .SetProjection (XMMatrixPerspectiveLH 1.0 (9.0 / 16.0) 0.5 40.0)] }
          ∧ Game.Reachable XMMatrixPerspectiveLH
              { members with
                pointerEnabled := true
                rawInputEnabled := false
                log := members.log ++ [.WindowCtor 1600 900 "Annihilargh", .LightCtor 0.5,
                  .EnableMousePointer, .DisableRawInput,
                  .SetProjection (XMMatrixPerspectiveLH 1.0 (9.0 / 16.0) 0.5 40.0)] })
      ∧ ((∀ l c, throws l c = false) → ∀ inp s, ∃ s1, Game.Tick throws inp s = .ok s1) := by
  refine ⟨fun members s1 h => ?_, fun s h => ?_, fun inp s s1 hinv h => ?_,
    fun e s s1 he h => ?_, fun fuel s s1 h => (keyLoop_eq_ok throws fuel s s1 h).1,
    fun inp s s1 h => (Tick_eq_ok throws inp s s1 h).2.2.1,
    fun hnt members => ⟨ctor_of_never throws hnt XMMatrixPerspectiveLH members,
      Game.Reachable.ctor throws members _
        (ctor_of_never throws hnt XMMatrixPerspectiveLH members)⟩,
    fun hnt inp s => Tick_of_never throws hnt inp s⟩
  · exact ⟨(ctor_eq_ok throws _ members s1 h).1, (ctor_eq_ok throws _ members s1 h).2.1⟩
  · have := Reachable_flags XMMatrixPerspectiveLH s h
    rw [this]
    cases s.rawInputEnabled <;> simp
  · obtain ⟨h1, h2, _⟩ := Tick_eq_ok throws inp s s1 h
    have hinv2 : s.pointerEnabled = !s.rawInputEnabled := by
      cases hp : s.pointerEnabled <;> cases hr : s.rawInputEnabled <;> simp_all
    refine ⟨fun hodd => ?_, fun heven => ?_, ?_⟩
    · have hz : escapePresses s.keyQueue ≠ 0 := by omega
      rw [if_neg hz] at h2
      rw [h2, h1, hodd, hinv2]
      simp
    · rw [h1, heven]
      by_cases hz : escapePresses s.keyQueue = 0
      · rw [if_pos hz] at h2
        simp [h2]
      · rw [if_neg hz] at h2
        rw [h2, h1, heven, hinv2]
        simp
    · by_cases hz : escapePresses s.keyQueue = 0
      · rw [if_pos hz] at h2
        rw [h1, h2, hz, hinv2]
        cases s.rawInputEnabled <;> simp
      · rw [if_neg hz] at h2
        rw [h2]
        cases s1.pointerEnabled <;> simp
  · obtain ⟨_, _, _, _, h5, h6, _⟩ := onKeyEvent_eq_ok throws e s s1 h
    rw [he] at h5 h6
    exact ⟨by simpa using h5, by simpa using h6⟩

/-- C10 on a sample game on which nothing throws: the constructor returns with the
pointer enabled and raw input disabled; message processing then queues five events,
three of them Escape presses; the frame started from that state returns and leaves the
pointer disabled, raw input enabled and the keyboard queue empty, in a state that is
reachable and so satisfies the invariant. -/
theorem C10_pointer_raw_input_flags_witness :
    ∃ s0 s1,
      Game.ctor neverThrows samplePerspective sampleMembers = .ok s0
        ∧ s0.pointerEnabled = true ∧ s0.rawInputEnabled = false
        ∧ escapePresses (s0.keyQueue ++ sampleKeys) % 2 = 1
        ∧ Game.Tick neverThrows sampleFrame
            { s0 with keyQueue := s0.keyQueue ++ sampleKeys
                      rawDeltaQueue := s0.rawDeltaQueue ++ sampleDeltas } = .ok s1
        ∧ s1.pointerEnabled = false ∧ s1.rawInputEnabled = true ∧ s1.keyQueue = []
        ∧ Game.Reachable samplePerspective s1
        ∧ (s1.pointerEnabled = true ↔ s1.rawInputEnabled = false) := by
  obtain ⟨hflags, hinv, h3, _, _, h6, hctor, htick⟩ :=
    C10_pointer_raw_input_flags (neverThrows : List (GameCall FloatTerm (List FloatTerm)) → _)
      samplePerspective
  obtain ⟨h0, hreach0⟩ := hctor (fun _ _ => rfl) sampleMembers
  obtain ⟨hp0, hr0⟩ := hflags sampleMembers _ h0
  obtain ⟨s1, hs1⟩ := htick (fun _ _ => rfl) sampleFrame
    { ({ sampleMembers with
          pointerEnabled := true
          rawInputEnabled := false
          log := sampleMembers.log ++ [.WindowCtor 1600 900 "Annihilargh", .LightCtor 0.5,
            .EnableMousePointer, .DisableRawInput,
            .SetProjection (samplePerspective 1.0 (9.0 / 16.0) 0.5 40.0)] } :
        GameState FloatTerm (List FloatTerm)) with
      keyQueue := sampleMembers.keyQueue ++ sampleKeys
      rawDeltaQueue := sampleMembers.rawDeltaQueue ++ sampleDeltas }
  have hflip := (h3 sampleFrame _ s1 (by decide) hs1).1 (by decide)
  have hreach1 : Game.Reachable samplePerspective s1 :=
    Game.Reachable.Tick neverThrows sampleFrame _ s1
      (Game.Reachable.ProcessMessages _ sampleKeys sampleDeltas hreach0) hs1
  exact ⟨_, s1, h0, hp0, hr0, by decide, hs1, hflip.1, hflip.2,
    h6 sampleFrame _ s1 hs1, hreach1, hinv s1 hreach1⟩

end GameClaims

/-! ## The claims about `Graphics` on sample backends -/

/-- C2 on a backend whose `GetBuffer` fails (and whose `CreateRenderTargetView` would fail
too): the anomaly carries the status of `GetBuffer`, and `CreateRenderTargetView` is
never called. -/
theorem C2_ctor_first_failure_witness :
    (∃ a, (Graphics.ctor noBackBufferBackend "Graphics.cpp" false 7 :
          Run FloatTerm Graphics).result = .error a
        ∧ a.cls = .AnomalyHresult ∧ a.GetErrorCode = E_OUTOFMEMORY)
      ∧ (Graphics.ctor noBackBufferBackend "Graphics.cpp" false 7 :
          Run FloatTerm Graphics).calls.map D3DCall.name
        = ["D3D11CreateDeviceAndSwapChain", "GetBuffer"] :=
  (C2_ctor_first_failure noBackBufferBackend "Graphics.cpp" false 7).2.1
    (by decide) (by decide)

/-- C8 on a backend that cannot read the vertex shader file (and would fail to create the
input layout): the anomaly carries the status of that read, the calls stop there. -/
theorem C8_DrawTestTriangle_first_failure_witness :
    (Graphics.DrawTestTriangle missingShaderBackend "Graphics.cpp" sampleGraphics :
        Run FloatTerm Unit).threwAfter (0x80070002 - 2 ^ 32)
      ["CreateBuffer", "IASetVertexBuffers", "D3DReadFileToBlob", "CreatePixelShader",
       "PSSetShader", "D3DReadFileToBlob"] :=
  (C8_DrawTestTriangle_first_failure missingShaderBackend "Graphics.cpp"
    sampleGraphics).2.2.2.1 (by decide) (by decide) (by decide) (by decide)

end Annihilargh
